import Mathlib

/-! Shallow embedding of the ArcPy-Parquet Python toolbox
    (`ArcPy-Parquet-Tools.pyt`): a filesystem model with `pathlib` glob
    semantics, the tool parameter state, and the `ParquetToFeatureClass`
    tool's `updateParameters` and `execute` methods, together with the
    parameter declarations from `getParameterInfo` that the claims refer
    to.  Python exceptions are modelled by `Except`. -/

/-- Model of a filesystem entry: a file, or a directory with children. -/
inductive FSEntry where
  | file (name : String)
  | dir (name : String) (children : List FSEntry)

/-- Name of a filesystem entry (the final path component). -/
def ename : FSEntry → String
  | FSEntry.file n => n
  | FSEntry.dir n _ => n

/-- Whether an entry is a directory (`Path.is_dir()`). -/
def isDir : FSEntry → Bool
  | FSEntry.file _ => false
  | FSEntry.dir _ _ => true

/-- Look up the entry at a path (list of path segments) under a root entry. -/
def findEntry : FSEntry → List String → Option FSEntry
  | e, [] => some e
  | FSEntry.file _, _ :: _ => none
  | FSEntry.dir _ cs, seg :: rest =>
    match cs.find? (fun e => ename e == seg) with
    | some e => findEntry e rest
    | none => none

/-- Children of the directory at a path; empty when the path is missing or
    names a file (pathlib's selectors yield nothing when the base is not a
    directory).  `Path.glob('*')` returns exactly these children: pathlib
    matches with `fnmatch`, which does not treat leading dots specially. -/
def childrenAt (root : FSEntry) (path : List String) : List FSEntry :=
  match findEntry root path with
  | some (FSEntry.dir _ cs) => cs
  | _ => []

/-- Python `PurePath.__truediv__` with a string segment: appending an empty
    segment leaves the path unchanged. -/
def pyJoin (p : List String) (seg : String) : List String :=
  if seg == "" then p else p ++ [seg]

/-- Position of the last '.' in a list of characters, if any. -/
def lastDotPos : List Char → Option Nat
  | [] => none
  | c :: cs =>
    match lastDotPos cs with
    | some i => some (i + 1)
    | none => if c == '.' then some (0 : Nat) else none

/-- Python `PurePath.stem`: the final component without its suffix; the
    suffix is dropped only when the last '.' is neither the first nor the
    last character of the name. -/
def pstem (n : String) : String :=
  match lastDotPos n.data with
  | some i => if 0 < i ∧ i + 1 < n.data.length then String.mk (n.data.take i) else n
  | none => n

/-- `ParquetToFeatureClass.get_partition_lst`, that is
    `[p.stem for p in dir_pth.glob('*') if p.is_dir() and p.stem]`. -/
def get_partition_lst (root : FSEntry) (path : List String) : List String :=
  ((childrenAt root path).filter (fun p => isDir p && pstem (ename p) != "")).map
    (fun p => pstem (ename p))

mutual
/-- All entries strictly below an entry, paired with their paths, in the
    order pathlib's recursive glob visits them: for each directory (taken
    root first, then depth first) its children in directory order. -/
def entDescendP (pre : List String) : FSEntry → List (List String × FSEntry)
  | FSEntry.file _ => []
  | FSEntry.dir _ cs =>
    cs.map (fun e => (pre ++ [ename e], e)) ++ deepP pre cs

/-- Auxiliary for `entDescendP`: descendants of every entry of a list. -/
def deepP (pre : List String) : List FSEntry → List (List String × FSEntry)
  | [] => []
  | e :: es => entDescendP (pre ++ [ename e]) e ++ deepP pre es
end

/-- `Path(base).rglob(pattern)`, i.e. `glob('**/' + pattern)`: every entry
    below the directory at `base` whose name matches the pattern. -/
def rglobP (root : FSEntry) (base : List String) (pat : String → Bool) :
    List (List String × FSEntry) :=
  match findEntry root base with
  | some (FSEntry.dir n cs) =>
    (entDescendP base (FSEntry.dir n cs)).filter (fun pe => pat (ename pe.2))
  | _ => []

/-- Bool test for one list of characters being a prefix of another. -/
def prefixChars : List Char → List Char → Bool
  | [], _ => true
  | _ :: _, [] => false
  | a :: as, b :: bs => a == b && prefixChars as bs

/-- Substring test on character lists. -/
def containsChars (needle : List Char) : List Char → Bool
  | [] => prefixChars needle []
  | c :: cs => prefixChars needle (c :: cs) || containsChars needle cs

/-- `fnmatch` test for the pattern `part-*.parquet`. -/
def matchPartParquet (n : String) : Bool :=
  prefixChars "part-".data n.data && prefixChars ".parquet".data.reverse n.data.reverse &&
    decide (13 ≤ n.data.length)

/-- `fnmatch` test for the pattern `part*.csv`. -/
def matchPartCsv (n : String) : Bool :=
  prefixChars "part".data n.data && prefixChars ".csv".data.reverse n.data.reverse &&
    decide (8 ≤ n.data.length)

mutual
/-- Names in a filesystem tree are nonempty (true of any real filesystem). -/
def wfEntry : FSEntry → Bool
  | FSEntry.file n => n != ""
  | FSEntry.dir n cs => n != "" && wfList cs

/-- Auxiliary for `wfEntry` over a list of children. -/
def wfList : List FSEntry → Bool
  | [] => true
  | e :: es => wfEntry e && wfList es
end

/-- The `parameterType` of an `arcpy.Parameter`. -/
inductive ParamType where
  | required
  | optional
deriving DecidableEq

/-- The slice of an `arcpy.Parameter`'s state the toolbox reads and
    writes: value, altered flag, enabled flag, parameter type, filter, and
    the validation message set by `setErrorMessage`.  The vendor runtime
    clears validation messages before each `updateParameters` round. -/
structure Param (α : Type) where
  value : Option α := none
  altered : Bool := false
  enabled : Bool := true
  paramType : ParamType := ParamType.required
  filterType : Option String := none
  filterList : List String := []
  errorMessage : Option String := none
deriving DecidableEq

/-- Parameter state of the `ParquetToFeatureClass` tool, in the order of
    its `getParameterInfo` parameter list.  The folder path value is kept
    as path segments. -/
structure PqtToFcState where
  pqt_pth : Param (List String)
  pqt_prt_01 : Param String
  pqt_prt_02 : Param String
  pqt_prt_03 : Param String
  sptl_ref : Param String
  out_fc_pth : Param String
  geom_col : Param String
  geom_type : Param String
  x_col : Param String
  y_col : Param String
  h3_col : Param String
  build_idx : Param Bool
  smpl : Param Bool
  smpl_cnt : Param Int
  schema_file_pth : Param String
deriving DecidableEq

/-- The environment `updateParameters` reads: the filesystem, and the
    schema column names `pyarrow.parquet.ParquetDataset(path).schema.names`
    reports for a dataset path. -/
structure World where
  root : FSEntry
  schemaNames : List String → List String

/-- Python exceptions the embedded methods can raise. -/
inductive PyErr where
  | attributeError (attr : String)
  | nameError (n : String)
  | typeError (msg : String)
deriving DecidableEq

/-- Validation message for a parquet folder without part files. -/
def cannotLocateMsg : String := "Cannot locate parquet \"part\" files."

/-- Validation message for a nonpositive sample count. -/
def sampleCountMsg : String := "Sample count must be greater than zero."

/-- The `out_fc_pth` prepopulation step of `updateParameters`:
    `fc_name = out_fc_pth.stem` reads an attribute `stem` that
    `arcpy.Parameter` objects do not have, so reaching the branch raises
    `AttributeError`. -/
def prepopOutput (s : PqtToFcState) : Except PyErr PqtToFcState :=
  if s.pqt_pth.altered && s.out_fc_pth.value.isNone then
    Except.error (PyErr.attributeError "stem")
  else
    Except.ok s

/-- The `if pqt_pth.altered:` block of `updateParameters`: checks for
    `part-*.parquet` files below the folder, then populates and enables
    the level-one partition dropdown when partition directories exist.
    Returns the `p_pth` local variable (bound only in this block) for the
    later blocks. -/
def parquetPathBlock (w : World) (s : PqtToFcState) :
    Except PyErr (PqtToFcState × Option (List String)) :=
  if s.pqt_pth.altered then
    match s.pqt_pth.value with
    | none => Except.error (PyErr.typeError "Path(None)")
    | some p =>
      let s1 := if (rglobP w.root p matchPartParquet).isEmpty then
          { s with pqt_pth := { s.pqt_pth with errorMessage := some cannotLocateMsg } }
        else s
      let prt01Lst := get_partition_lst w.root p
      let s2 := if prt01Lst.length != 0 then
          { s1 with
            pqt_prt_01 := { s1.pqt_prt_01 with
                            filterType := some "ValueList",
                            filterList := prt01Lst,
                            enabled := true } }
        else s1
      Except.ok (s2, some p)
  else
    Except.ok (s, none)

/-- The `if pqt_prt_01.altered:` block: populates level two from
    `p_pth / pqt_prt_01.value`.  When `p_pth` was never assigned the
    Python code raises `NameError`; joining with a `None` partition value
    raises `TypeError`. -/
def partitionTwoBlock (w : World) (s : PqtToFcState) (pPth : Option (List String)) :
    Except PyErr PqtToFcState :=
  if s.pqt_prt_01.altered then
    match pPth with
    | none => Except.error (PyErr.nameError "p_pth")
    | some p =>
      match s.pqt_prt_01.value with
      | none => Except.error (PyErr.typeError "unsupported operand for /: NoneType")
      | some v1 =>
        let prt02Lst := get_partition_lst w.root (pyJoin p v1)
        Except.ok (if prt02Lst.length != 0 then
            { s with
              pqt_prt_02 := { s.pqt_prt_02 with
                              filterType := some "ValueList",
                              filterList := prt02Lst,
                              enabled := true } }
          else s)
  else
    Except.ok s

/-- The `if pqt_prt_02.altered:` block: populates level three from
    `p_pth / pqt_prt_01.value / pqt_prt_02.value`, with the same failure
    modes as the level-two block. -/
def partitionThreeBlock (w : World) (s : PqtToFcState) (pPth : Option (List String)) :
    Except PyErr PqtToFcState :=
  if s.pqt_prt_02.altered then
    match pPth with
    | none => Except.error (PyErr.nameError "p_pth")
    | some p =>
      match s.pqt_prt_01.value with
      | none => Except.error (PyErr.typeError "unsupported operand for /: NoneType")
      | some v1 =>
        match s.pqt_prt_02.value with
        | none => Except.error (PyErr.typeError "unsupported operand for /: NoneType")
        | some v2 =>
          let prt03Lst := get_partition_lst w.root (pyJoin (pyJoin p v1) v2)
          Except.ok (if prt03Lst.length != 0 then
              { s with
                pqt_prt_03 := { s.pqt_prt_03 with
                                filterType := some "ValueList",
                                filterList := prt03Lst,
                                enabled := true } }
            else s)
  else
    Except.ok s

/-- Integer comparison `smpl_cnt.value < 1`.  Every evaluation of this
    comparison in the sample branch chain happens after an earlier branch
    has already handled a `None` value, so the `none` case is arbitrary. -/
def cntLtOne : Option Int → Bool
  | some n => decide (n < 1)
  | none => false

/-- The export-sample branch chain of `updateParameters`. -/
def sampleBlock (s : PqtToFcState) : PqtToFcState :=
  if s.smpl.value == some true && s.smpl_cnt.value.isNone then
    { s with smpl_cnt := { s.smpl_cnt with errorMessage := some sampleCountMsg } }
  else if s.smpl.value == some true && cntLtOne s.smpl_cnt.value then
    { s with smpl_cnt := { s.smpl_cnt with errorMessage := some sampleCountMsg } }
  else if s.smpl.altered && s.smpl.value == some true then
    { s with smpl_cnt := { s.smpl_cnt with enabled := true } }
  else if s.smpl.altered && s.smpl.value == some false && s.smpl_cnt.value.isNone then
    { s with smpl_cnt := { s.smpl_cnt with value := some 100 } }
  else if s.smpl.altered && s.smpl.value == some false && cntLtOne s.smpl_cnt.value then
    { s with smpl_cnt := { s.smpl_cnt with value := some 100 } }
  else if s.smpl.altered && s.smpl.value == some false then
    { s with smpl_cnt := { s.smpl_cnt with enabled := false } }
  else s

/-- Python `str.lower()` on ASCII column names, characterwise. -/
def pyLower (s : String) : String := String.mk (s.data.map Char.toLower)

/-- Column name tests used for the default searches: `'wkb' in col.lower()`. -/
def isWkbCol (c : String) : Bool := containsChars "wkb".data (pyLower c).data

/-- Column name test `col.lower() in ['x', 'lon', 'longitude']`. -/
def isLonCol (c : String) : Bool :=
  pyLower c == "x" || pyLower c == "lon" || pyLower c == "longitude"

/-- Column name test `col.lower() in ['y', 'lat', 'latitude']`. -/
def isLatCol (c : String) : Bool :=
  pyLower c == "y" || pyLower c == "lat" || pyLower c == "latitude"

/-- Column name test `col.lower().startswith('h3')`. -/
def isH3Col (c : String) : Bool := prefixChars "h3".data (pyLower c).data

/-- Final value of a variable assigned inside `for col in col_lst:` each
    time a condition holds, starting from `None`: the last match. -/
def lastMatch (p : String → Bool) (l : List String) : Option String :=
  l.foldl (fun acc c => if p c then some c else acc) none

/-- First half of the second `if pqt_pth.altered:` block: the schema
    column names become the filter list of the four column parameters. -/
def setColumnFilters (w : World) (s : PqtToFcState) : PqtToFcState :=
  if s.pqt_pth.altered then
    match s.pqt_pth.value with
    | some p =>
      let colLst := w.schemaNames p
      { s with
        geom_col := { s.geom_col with filterList := colLst },
        x_col := { s.x_col with filterList := colLst },
        y_col := { s.y_col with filterList := colLst },
        h3_col := { s.h3_col with filterList := colLst } }
    | none => s
  else s

/-- Second half of the second `if pqt_pth.altered:` block: the default
    search loop over the schema columns, yielding the final values of
    `geom_col_value`, `x_col_value`, `y_col_value`, `h3_col_value`
    (each initialised to `None`). -/
def columnDefaults (w : World) (s : PqtToFcState) :
    Option String × Option String × Option String × Option String :=
  if s.pqt_pth.altered then
    match s.pqt_pth.value with
    | some p =>
      let colLst := w.schemaNames p
      (lastMatch isWkbCol colLst, lastMatch isLonCol colLst,
        lastMatch isLatCol colLst, lastMatch isH3Col colLst)
    | none => (none, none, none, none)
  else (none, none, none, none)

/-- Modelled from the spec: the body of `deactivate_parameter`, imported
    by the toolbox from `arcpy_parquet.utils.pyt_utils`, is not among the
    sources.  Per the spec's account of the parameter-dependent UI logic
    it deactivates a parameter: the parameter is disabled and no longer
    required. -/
def deactivate_parameter {α : Type} (p : Param α) : Param α :=
  { p with enabled := false, paramType := ParamType.optional }

/-- The `if geom_type.altered or pqt_pth.altered:` block: enables and
    requires the column parameters of the selected geometry type, gives
    them their defaults when unset, and deactivates the others. -/
def geomTypeBlock (s : PqtToFcState) (gV xV yV hV : Option String) : PqtToFcState :=
  if s.geom_type.altered || s.pqt_pth.altered then
    if s.geom_type.value == some "COORDINATES" then
      let xc := { s.x_col with paramType := ParamType.required, enabled := true }
      let xc := if xc.value.isNone then { xc with value := xV } else xc
      let yc := { s.y_col with paramType := ParamType.required, enabled := true }
      let yc := if yc.value.isNone then { yc with value := yV } else yc
      { s with
        x_col := xc,
        y_col := yc,
        geom_col := deactivate_parameter s.geom_col,
        h3_col := deactivate_parameter s.h3_col }
    else if s.geom_type.value == some "H3" then
      let hc := { s.h3_col with paramType := ParamType.required, enabled := true }
      let hc := if hc.value.isNone then { hc with value := hV } else hc
      { s with
        h3_col := hc,
        geom_col := deactivate_parameter s.geom_col,
        x_col := deactivate_parameter s.x_col,
        y_col := deactivate_parameter s.y_col }
    else
      let gc := { s.geom_col with paramType := ParamType.required, enabled := true }
      let gc := if gc.value.isNone then { gc with value := gV } else gc
      { s with
        geom_col := gc,
        x_col := deactivate_parameter s.x_col,
        y_col := deactivate_parameter s.y_col,
        h3_col := deactivate_parameter s.h3_col }
  else s

/-- The last `if pqt_pth.altered:` block: looks for a `schema` entry below
    the parent of the parquet folder and, below the first one, for a
    `part*.csv` file to prepopulate the schema file parameter. -/
def schemaFileBlock (w : World) (s : PqtToFcState) : PqtToFcState :=
  if s.pqt_pth.altered then
    match s.pqt_pth.value with
    | some p =>
      let dsPth := p.dropLast
      match rglobP w.root dsPth (fun n => n == "schema") with
      | [] => s
      | (schmDirPth, _) :: _ =>
        match rglobP w.root schmDirPth matchPartCsv with
        | [] => s
        | (csvPth, _) :: _ =>
          { s with
            schema_file_pth := { s.schema_file_pth with
                                 value := some (String.intercalate "/" csvPth) } }
    | none => s
  else s

/-- The blocks of `updateParameters` after the partition blocks, which
    cannot raise: sample-count branches, column filter lists and default
    search, geometry-type branches, schema-file discovery, in source
    order. -/
def pureTail (w : World) (s : PqtToFcState) : PqtToFcState :=
  let s₅ := sampleBlock s
  let s₆ := setColumnFilters w s₅
  let d := columnDefaults w s₆
  let s₇ := geomTypeBlock s₆ d.1 d.2.1 d.2.2.1 d.2.2.2
  schemaFileBlock w s₇

/-- `ParquetToFeatureClass.updateParameters`, block by block in source
    order. -/
def updateParameters (w : World) (s₀ : PqtToFcState) : Except PyErr PqtToFcState :=
  match prepopOutput s₀ with
  | Except.error e => Except.error e
  | Except.ok s₁ =>
    match parquetPathBlock w s₁ with
    | Except.error e => Except.error e
    | Except.ok (s₂, pPth) =>
      match partitionTwoBlock w s₂ pPth with
      | Except.error e => Except.error e
      | Except.ok s₃ =>
        match partitionThreeBlock w s₃ pPth with
        | Except.error e => Except.error e
        | Except.ok s₄ => Except.ok (pureTail w s₄)

/-- The `geometry_column` argument built by `ParquetToFeatureClass.execute`:
    a two-element list for COORDINATES, a single column otherwise. -/
inductive GeometryColumnArg where
  | cols (x y : Option String)
  | single (c : Option String)
deriving DecidableEq

/-- The arguments `ParquetToFeatureClass.execute` passes to
    `parquet_to_feature_class`. -/
structure P2FCArgs where
  input_parquet : Option (List String)
  output_feature_class : String
  schema_file : Option String
  geometry_type : Option String
  parquet_partitions : List String
  geometry_column : GeometryColumnArg
  spatial_reference : Option String
  sample_count : Option Int
  build_spatial_index : Option Bool
deriving DecidableEq

/-- The `if smpl is True: smpl_cnt = int(smpl_cnt) else: smpl_cnt = None`
    step of `execute`: `int(smpl_cnt)` with a `None` count raises
    `TypeError`. -/
def smplCntArg (s : PqtToFcState) : Except PyErr (Option Int) :=
  if s.smpl.value == some true then
    match s.smpl_cnt.value with
    | none => Except.error (PyErr.typeError "int(None)")
    | some n => Except.ok (some n)
  else Except.ok none

/-- The geometry-column handling of `execute`: a two-element list of the
    longitude and latitude columns for COORDINATES, the H3 column for H3,
    and the geometry column otherwise. -/
def geometryColumnArg (s : PqtToFcState) : GeometryColumnArg :=
  if s.geom_type.value == some "COORDINATES" then
    GeometryColumnArg.cols s.x_col.value s.y_col.value
  else if s.geom_type.value == some "H3" then
    GeometryColumnArg.single s.h3_col.value
  else
    GeometryColumnArg.single s.geom_col.value

/-- `ParquetToFeatureClass.execute`: the argument construction up to the
    `parquet_to_feature_class` call.  `Path(out_fc_pth)` with a `None`
    output raises `TypeError`. -/
def executeP2FC (s : PqtToFcState) : Except PyErr P2FCArgs :=
  let partitionVals := [s.pqt_prt_01.value, s.pqt_prt_02.value, s.pqt_prt_03.value].filterMap id
  let geometryColumn := geometryColumnArg s
  match smplCntArg s with
  | Except.error e => Except.error e
  | Except.ok smplCnt =>
    match s.out_fc_pth.value with
    | none => Except.error (PyErr.typeError "Path(None)")
    | some outFc =>
      Except.ok {
        input_parquet := s.pqt_pth.value,
        output_feature_class := outFc,
        schema_file := s.schema_file_pth.value,
        geometry_type := s.geom_type.value,
        parquet_partitions := partitionVals,
        geometry_column := geometryColumn,
        spatial_reference := s.sptl_ref.value,
        sample_count := smplCnt,
        build_spatial_index := s.build_idx.value }

/-- The `geometry_format` parameter of `FeatureClassToParquet.getParameterInfo`. -/
def featureClassToParquet_geometry_format : Param String :=
  { value := some "WKB", altered := false, enabled := true,
    paramType := ParamType.required, filterType := some "ValueList",
    filterList := ["WKB", "WKT", "XY"], errorMessage := none }

/-- The `geom_type` parameter of `ParquetToFeatureClass.getParameterInfo`,
    as a function of the `has_h3` import flag of the toolbox module. -/
def parquetToFeatureClass_geom_type (has_h3 : Bool) : Param String :=
  let fltrLst := ["POINT", "POLYLINE", "POLYGON", "COORDINATES"]
  let fltrLst := if has_h3 then fltrLst ++ ["H3"] else fltrLst
  { value := some "COORDINATES", altered := false, enabled := true,
    paramType := ParamType.required, filterType := some "ValueList",
    filterList := fltrLst, errorMessage := none }

/-- Names of the immediate child directories at a path: the directories a
    partition level offers. -/
def dirChildNames (root : FSEntry) (path : List String) : List String :=
  ((childrenAt root path).filter isDir).map ename

/-- Concrete filesystem used by the witnesses: a partitioned parquet
    dataset `data/pqt` with three partition levels, part files at every
    level, and a sibling `data/schema` directory holding a CSV. -/
def wRoot : FSEntry :=
  FSEntry.dir "root" [
    FSEntry.dir "data" [
      FSEntry.dir "pqt" [
        FSEntry.dir "year=2020" [
          FSEntry.dir "month=01" [
            FSEntry.dir "day=05" [FSEntry.file "part-00002.parquet"],
            FSEntry.file "part-00001.parquet"],
          FSEntry.file "part-00000.parquet"],
        FSEntry.file "part-00003.parquet"],
      FSEntry.dir "schema" [FSEntry.file "part-0.csv"]]]

/-- Concrete environment used by the witnesses. -/
def wW : World :=
  { root := wRoot,
    schemaNames := fun _ => ["OBJECTID", "geometry_wkb", "lon", "lat", "h3_09"] }

/-- A parameter state with every parameter fresh and unset. -/
def baseState : PqtToFcState :=
  { pqt_pth := {}, pqt_prt_01 := {}, pqt_prt_02 := {}, pqt_prt_03 := {},
    sptl_ref := {}, out_fc_pth := {}, geom_col := {}, geom_type := {},
    x_col := {}, y_col := {}, h3_col := {}, build_idx := {}, smpl := {},
    smpl_cnt := {}, schema_file_pth := {} }

/-- Result state of `updateParameters`, with the input state as the
    fallback for the error case. -/
def updOut (w : World) (s : PqtToFcState) : PqtToFcState :=
  match updateParameters w s with
  | Except.ok t => t
  | Except.error _ => s

/-- Witness state: parquet path pointing at `data/pqt`, partition levels
    one and two chosen, output set, COORDINATES geometry. -/
def sW : PqtToFcState :=
  { baseState with
    pqt_pth := { value := some ["data", "pqt"], altered := true },
    pqt_prt_01 := { value := some "year=2020", altered := true },
    pqt_prt_02 := { value := some "month=01", altered := true },
    out_fc_pth := { value := some "memory/out_fc" },
    geom_type := { value := some "COORDINATES" },
    smpl := { value := some false },
    smpl_cnt := { value := some 100 } }

/-- Failing input for the safety claim: parquet path altered while the
    output feature class value is still unset. -/
def sBug : PqtToFcState :=
  { baseState with
    pqt_pth := { value := some ["data", "pqt"], altered := true } }

/-- Witness state for the sample-count branch: export sample switched to
    False with a nonpositive count. -/
def sW4 : PqtToFcState :=
  { baseState with
    smpl := { value := some false, altered := true },
    smpl_cnt := { value := some 0 } }

/-- Witness state for the sample-count error: export sample True with an
    unset count, nothing else altered. -/
def sW4e : PqtToFcState :=
  { baseState with
    smpl := { value := some true, altered := true },
    smpl_cnt := { value := none } }

/-- Counterexample state: parquet path supplied, geometry column unset,
    schema containing a wkb column, but geometry type COORDINATES. -/
def sC6 : PqtToFcState :=
  { baseState with
    pqt_pth := { value := some ["data", "pqt"], altered := true },
    out_fc_pth := { value := some "memory/out_fc" },
    geom_type := { value := some "COORDINATES" },
    smpl := { value := some false },
    smpl_cnt := { value := some 100 } }

/-- Witness state for the amended wkb default: geometry type POINT. -/
def sW6 : PqtToFcState :=
  { sC6 with geom_type := { value := some "POINT" } }

/-- Fallback argument record for the error case of `execOut`. -/
def argsDummy : P2FCArgs :=
  { input_parquet := none, output_feature_class := "", schema_file := none,
    geometry_type := none, parquet_partitions := [],
    geometry_column := GeometryColumnArg.single none,
    spatial_reference := none, sample_count := none,
    build_spatial_index := none }

/-- Result of `executeP2FC`, with a fallback for the error case. -/
def execOut (s : PqtToFcState) : P2FCArgs :=
  match executeP2FC s with
  | Except.ok a => a
  | Except.error _ => argsDummy

/-- Witness state for `execute`: partition levels one and three set and
    level two unset, sample export on with a count of 50. -/
def sE : PqtToFcState :=
  { baseState with
    pqt_pth := { value := some ["data", "pqt"] },
    pqt_prt_01 := { value := some "year=2020" },
    pqt_prt_03 := { value := some "day=05" },
    out_fc_pth := { value := some "gdb/out_fc" },
    geom_type := { value := some "COORDINATES" },
    x_col := { value := some "lon" },
    y_col := { value := some "lat" },
    smpl := { value := some true },
    smpl_cnt := { value := some 50 },
    build_idx := { value := some true } }

/-! Frame lemmas: each block of `updateParameters` leaves the parameters
    it does not mention untouched. -/

theorem sampleBlock_pqt_pth (s : PqtToFcState) : (sampleBlock s).pqt_pth = s.pqt_pth := by
  unfold sampleBlock
  repeat' split
  all_goals rfl

theorem sampleBlock_pqt_prt_01 (s : PqtToFcState) :
    (sampleBlock s).pqt_prt_01 = s.pqt_prt_01 := by
  unfold sampleBlock
  repeat' split
  all_goals rfl

theorem sampleBlock_pqt_prt_02 (s : PqtToFcState) :
    (sampleBlock s).pqt_prt_02 = s.pqt_prt_02 := by
  unfold sampleBlock
  repeat' split
  all_goals rfl

theorem sampleBlock_pqt_prt_03 (s : PqtToFcState) :
    (sampleBlock s).pqt_prt_03 = s.pqt_prt_03 := by
  unfold sampleBlock
  repeat' split
  all_goals rfl

theorem sampleBlock_geom_col (s : PqtToFcState) : (sampleBlock s).geom_col = s.geom_col := by
  unfold sampleBlock
  repeat' split
  all_goals rfl

theorem sampleBlock_geom_type (s : PqtToFcState) : (sampleBlock s).geom_type = s.geom_type := by
  unfold sampleBlock
  repeat' split
  all_goals rfl

theorem sampleBlock_x_col (s : PqtToFcState) : (sampleBlock s).x_col = s.x_col := by
  unfold sampleBlock
  repeat' split
  all_goals rfl

theorem sampleBlock_y_col (s : PqtToFcState) : (sampleBlock s).y_col = s.y_col := by
  unfold sampleBlock
  repeat' split
  all_goals rfl

theorem sampleBlock_h3_col (s : PqtToFcState) : (sampleBlock s).h3_col = s.h3_col := by
  unfold sampleBlock
  repeat' split
  all_goals rfl

theorem setColumnFilters_pqt_pth (w : World) (s : PqtToFcState) :
    (setColumnFilters w s).pqt_pth = s.pqt_pth := by
  unfold setColumnFilters
  repeat' split
  all_goals rfl

theorem setColumnFilters_pqt_prt_01 (w : World) (s : PqtToFcState) :
    (setColumnFilters w s).pqt_prt_01 = s.pqt_prt_01 := by
  unfold setColumnFilters
  repeat' split
  all_goals rfl

theorem setColumnFilters_pqt_prt_02 (w : World) (s : PqtToFcState) :
    (setColumnFilters w s).pqt_prt_02 = s.pqt_prt_02 := by
  unfold setColumnFilters
  repeat' split
  all_goals rfl

theorem setColumnFilters_pqt_prt_03 (w : World) (s : PqtToFcState) :
    (setColumnFilters w s).pqt_prt_03 = s.pqt_prt_03 := by
  unfold setColumnFilters
  repeat' split
  all_goals rfl

theorem setColumnFilters_smpl_cnt (w : World) (s : PqtToFcState) :
    (setColumnFilters w s).smpl_cnt = s.smpl_cnt := by
  unfold setColumnFilters
  repeat' split
  all_goals rfl

theorem setColumnFilters_geom_type (w : World) (s : PqtToFcState) :
    (setColumnFilters w s).geom_type = s.geom_type := by
  unfold setColumnFilters
  repeat' split
  all_goals rfl

theorem setColumnFilters_geom_col_value (w : World) (s : PqtToFcState) :
    (setColumnFilters w s).geom_col.value = s.geom_col.value := by
  unfold setColumnFilters
  repeat' split
  all_goals rfl

theorem setColumnFilters_x_col_value (w : World) (s : PqtToFcState) :
    (setColumnFilters w s).x_col.value = s.x_col.value := by
  unfold setColumnFilters
  repeat' split
  all_goals rfl

theorem setColumnFilters_y_col_value (w : World) (s : PqtToFcState) :
    (setColumnFilters w s).y_col.value = s.y_col.value := by
  unfold setColumnFilters
  repeat' split
  all_goals rfl

theorem setColumnFilters_h3_col_value (w : World) (s : PqtToFcState) :
    (setColumnFilters w s).h3_col.value = s.h3_col.value := by
  unfold setColumnFilters
  repeat' split
  all_goals rfl

theorem geomTypeBlock_pqt_pth (s : PqtToFcState) (gV xV yV hV : Option String) :
    (geomTypeBlock s gV xV yV hV).pqt_pth = s.pqt_pth := by
  unfold geomTypeBlock
  repeat' split
  all_goals rfl

theorem geomTypeBlock_pqt_prt_01 (s : PqtToFcState) (gV xV yV hV : Option String) :
    (geomTypeBlock s gV xV yV hV).pqt_prt_01 = s.pqt_prt_01 := by
  unfold geomTypeBlock
  repeat' split
  all_goals rfl

theorem geomTypeBlock_pqt_prt_02 (s : PqtToFcState) (gV xV yV hV : Option String) :
    (geomTypeBlock s gV xV yV hV).pqt_prt_02 = s.pqt_prt_02 := by
  unfold geomTypeBlock
  repeat' split
  all_goals rfl

theorem geomTypeBlock_pqt_prt_03 (s : PqtToFcState) (gV xV yV hV : Option String) :
    (geomTypeBlock s gV xV yV hV).pqt_prt_03 = s.pqt_prt_03 := by
  unfold geomTypeBlock
  repeat' split
  all_goals rfl

theorem geomTypeBlock_smpl_cnt (s : PqtToFcState) (gV xV yV hV : Option String) :
    (geomTypeBlock s gV xV yV hV).smpl_cnt = s.smpl_cnt := by
  unfold geomTypeBlock
  repeat' split
  all_goals rfl

theorem geomTypeBlock_geom_col_filterList (s : PqtToFcState) (gV xV yV hV : Option String) :
    (geomTypeBlock s gV xV yV hV).geom_col.filterList = s.geom_col.filterList := by
  unfold geomTypeBlock deactivate_parameter
  dsimp only
  repeat' split
  all_goals rfl

theorem schemaFileBlock_pqt_pth (w : World) (s : PqtToFcState) :
    (schemaFileBlock w s).pqt_pth = s.pqt_pth := by
  unfold schemaFileBlock
  dsimp only
  repeat' split
  all_goals rfl

theorem schemaFileBlock_pqt_prt_01 (w : World) (s : PqtToFcState) :
    (schemaFileBlock w s).pqt_prt_01 = s.pqt_prt_01 := by
  unfold schemaFileBlock
  dsimp only
  repeat' split
  all_goals rfl

theorem schemaFileBlock_pqt_prt_02 (w : World) (s : PqtToFcState) :
    (schemaFileBlock w s).pqt_prt_02 = s.pqt_prt_02 := by
  unfold schemaFileBlock
  dsimp only
  repeat' split
  all_goals rfl

theorem schemaFileBlock_pqt_prt_03 (w : World) (s : PqtToFcState) :
    (schemaFileBlock w s).pqt_prt_03 = s.pqt_prt_03 := by
  unfold schemaFileBlock
  dsimp only
  repeat' split
  all_goals rfl

theorem schemaFileBlock_smpl_cnt (w : World) (s : PqtToFcState) :
    (schemaFileBlock w s).smpl_cnt = s.smpl_cnt := by
  unfold schemaFileBlock
  dsimp only
  repeat' split
  all_goals rfl

theorem schemaFileBlock_geom_col (w : World) (s : PqtToFcState) :
    (schemaFileBlock w s).geom_col = s.geom_col := by
  unfold schemaFileBlock
  dsimp only
  repeat' split
  all_goals rfl

theorem schemaFileBlock_x_col (w : World) (s : PqtToFcState) :
    (schemaFileBlock w s).x_col = s.x_col := by
  unfold schemaFileBlock
  dsimp only
  repeat' split
  all_goals rfl

theorem schemaFileBlock_y_col (w : World) (s : PqtToFcState) :
    (schemaFileBlock w s).y_col = s.y_col := by
  unfold schemaFileBlock
  dsimp only
  repeat' split
  all_goals rfl

theorem schemaFileBlock_h3_col (w : World) (s : PqtToFcState) :
    (schemaFileBlock w s).h3_col = s.h3_col := by
  unfold schemaFileBlock
  dsimp only
  repeat' split
  all_goals rfl

theorem prepopOutput_ok (s t : PqtToFcState) (h : prepopOutput s = Except.ok t) : t = s := by
  unfold prepopOutput at h
  split at h
  · cases h
  · injection h with h'
    exact h'.symm

theorem parquetPathBlock_frame (w : World) (s t : PqtToFcState) (pp : Option (List String))
    (h : parquetPathBlock w s = Except.ok (t, pp)) :
    t.pqt_prt_02 = s.pqt_prt_02 ∧ t.pqt_prt_03 = s.pqt_prt_03 ∧ t.smpl = s.smpl ∧
      t.smpl_cnt = s.smpl_cnt ∧ t.geom_col = s.geom_col ∧ t.geom_type = s.geom_type ∧
      t.x_col = s.x_col ∧ t.y_col = s.y_col ∧ t.h3_col = s.h3_col ∧
      t.pqt_pth.value = s.pqt_pth.value ∧ t.pqt_pth.altered = s.pqt_pth.altered ∧
      t.pqt_prt_01.value = s.pqt_prt_01.value ∧ t.pqt_prt_01.altered = s.pqt_prt_01.altered := by
  unfold parquetPathBlock at h
  split at h
  case isTrue =>
    split at h
    case h_1 => cases h
    case h_2 =>
      dsimp only at h
      split at h <;> split at h <;>
        (injection h with h'; injection h' with h1 h2; subst h1;
          exact ⟨rfl, rfl, rfl, rfl, rfl, rfl, rfl, rfl, rfl, rfl, rfl, rfl, rfl⟩)
  case isFalse =>
    injection h with h'
    injection h' with h1 h2
    subst h1
    exact ⟨rfl, rfl, rfl, rfl, rfl, rfl, rfl, rfl, rfl, rfl, rfl, rfl, rfl⟩

theorem parquetPathBlock_notAltered (w : World) (s t : PqtToFcState) (pp : Option (List String))
    (h : parquetPathBlock w s = Except.ok (t, pp)) (ha : s.pqt_pth.altered = false) :
    t = s ∧ pp = none := by
  unfold parquetPathBlock at h
  split at h
  case isTrue hc => rw [ha] at hc; cases hc
  case isFalse =>
    injection h with h'
    injection h' with h1 h2
    exact ⟨h1.symm, h2.symm⟩

theorem parquetPathBlock_pp (w : World) (s t : PqtToFcState) (pp : Option (List String))
    (p : List String) (h : parquetPathBlock w s = Except.ok (t, pp))
    (ha : s.pqt_pth.altered = true) (hv : s.pqt_pth.value = some p) : pp = some p := by
  unfold parquetPathBlock at h
  split at h
  case isTrue =>
    split at h
    case h_1 heq => rw [hv] at heq; cases heq
    case h_2 p' heq =>
      rw [hv] at heq
      injection heq with heq'
      subst heq'
      dsimp only at h
      split at h <;> split at h <;>
        (injection h with h'; injection h' with h1 h2; exact h2.symm)
  case isFalse hc => exact absurd ha hc

theorem parquetPathBlock_msg (w : World) (s t : PqtToFcState) (pp : Option (List String))
    (p : List String) (h : parquetPathBlock w s = Except.ok (t, pp))
    (ha : s.pqt_pth.altered = true) (hv : s.pqt_pth.value = some p)
    (hm : s.pqt_pth.errorMessage = none) :
    (t.pqt_pth.errorMessage = some cannotLocateMsg ↔ rglobP w.root p matchPartParquet = []) := by
  unfold parquetPathBlock at h
  split at h
  case isTrue =>
    split at h
    case h_1 heq => rw [hv] at heq; cases heq
    case h_2 p' heq =>
      rw [hv] at heq
      injection heq with heq'
      subst heq'
      dsimp only at h
      split at h <;> split at h <;>
        (injection h with h'; injection h' with h1 h2; subst h1)
      all_goals simp_all [List.isEmpty_iff, cannotLocateMsg]
  case isFalse hc => exact absurd ha hc

theorem parquetPathBlock_prt01 (w : World) (s t : PqtToFcState) (pp : Option (List String))
    (p : List String) (h : parquetPathBlock w s = Except.ok (t, pp))
    (ha : s.pqt_pth.altered = true) (hv : s.pqt_pth.value = some p)
    (hne : get_partition_lst w.root p ≠ []) :
    t.pqt_prt_01.enabled = true ∧ t.pqt_prt_01.filterList = get_partition_lst w.root p ∧
      t.pqt_prt_01.filterType = some "ValueList" := by
  unfold parquetPathBlock at h
  split at h
  case isTrue =>
    split at h
    case h_1 heq => rw [hv] at heq; cases heq
    case h_2 p' heq =>
      rw [hv] at heq
      injection heq with heq'
      subst heq'
      dsimp only at h
      split at h <;> split at h <;>
        (injection h with h'; injection h' with h1 h2; subst h1)
      all_goals simp_all [List.length_eq_zero]
  case isFalse hc => exact absurd ha hc

theorem partitionTwoBlock_frame (w : World) (s t : PqtToFcState) (pp : Option (List String))
    (h : partitionTwoBlock w s pp = Except.ok t) :
    t.pqt_pth = s.pqt_pth ∧ t.pqt_prt_01 = s.pqt_prt_01 ∧ t.pqt_prt_03 = s.pqt_prt_03 ∧
      t.smpl = s.smpl ∧ t.smpl_cnt = s.smpl_cnt ∧ t.geom_col = s.geom_col ∧
      t.geom_type = s.geom_type ∧ t.x_col = s.x_col ∧ t.y_col = s.y_col ∧
      t.h3_col = s.h3_col ∧ t.pqt_prt_02.value = s.pqt_prt_02.value ∧
      t.pqt_prt_02.altered = s.pqt_prt_02.altered := by
  unfold partitionTwoBlock at h
  split at h
  case isTrue =>
    split at h
    case h_1 => cases h
    case h_2 =>
      split at h
      case h_1 => cases h
      case h_2 =>
        dsimp only at h
        injection h with h'
        subst h'
        split
        all_goals exact ⟨rfl, rfl, rfl, rfl, rfl, rfl, rfl, rfl, rfl, rfl, rfl, rfl⟩
  case isFalse =>
    injection h with h'
    subst h'
    exact ⟨rfl, rfl, rfl, rfl, rfl, rfl, rfl, rfl, rfl, rfl, rfl, rfl⟩

theorem partitionTwoBlock_prt02 (w : World) (s t : PqtToFcState) (pp : Option (List String))
    (p : List String) (v1 : String) (h : partitionTwoBlock w s pp = Except.ok t)
    (ha : s.pqt_prt_01.altered = true) (hp : pp = some p) (hv : s.pqt_prt_01.value = some v1)
    (hne : get_partition_lst w.root (pyJoin p v1) ≠ []) :
    t.pqt_prt_02.enabled = true ∧
      t.pqt_prt_02.filterList = get_partition_lst w.root (pyJoin p v1) ∧
      t.pqt_prt_02.filterType = some "ValueList" := by
  subst hp
  unfold partitionTwoBlock at h
  split at h
  case isTrue =>
    split at h
    case h_1 heq => cases heq
    case h_2 p' heq =>
      injection heq with heq'
      subst heq'
      split at h
      case h_1 heq2 => rw [hv] at heq2; cases heq2
      case h_2 v' heq2 =>
        rw [hv] at heq2
        injection heq2 with heq2'
        subst heq2'
        dsimp only at h
        split at h <;>
          (injection h with h'; subst h')
        all_goals simp_all [List.length_eq_zero]
  case isFalse hc => exact absurd ha hc

theorem partitionThreeBlock_frame (w : World) (s t : PqtToFcState) (pp : Option (List String))
    (h : partitionThreeBlock w s pp = Except.ok t) :
    t.pqt_pth = s.pqt_pth ∧ t.pqt_prt_01 = s.pqt_prt_01 ∧ t.pqt_prt_02 = s.pqt_prt_02 ∧
      t.smpl = s.smpl ∧ t.smpl_cnt = s.smpl_cnt ∧ t.geom_col = s.geom_col ∧
      t.geom_type = s.geom_type ∧ t.x_col = s.x_col ∧ t.y_col = s.y_col ∧
      t.h3_col = s.h3_col := by
  unfold partitionThreeBlock at h
  split at h
  case isTrue =>
    split at h
    case h_1 => cases h
    case h_2 =>
      split at h
      case h_1 => cases h
      case h_2 =>
        split at h
        case h_1 => cases h
        case h_2 =>
          dsimp only at h
          injection h with h'
          subst h'
          split
          all_goals exact ⟨rfl, rfl, rfl, rfl, rfl, rfl, rfl, rfl, rfl, rfl⟩
  case isFalse =>
    injection h with h'
    subst h'
    exact ⟨rfl, rfl, rfl, rfl, rfl, rfl, rfl, rfl, rfl, rfl⟩

theorem partitionThreeBlock_prt03 (w : World) (s t : PqtToFcState) (pp : Option (List String))
    (p : List String) (v1 v2 : String) (h : partitionThreeBlock w s pp = Except.ok t)
    (ha : s.pqt_prt_02.altered = true) (hp : pp = some p)
    (hv1 : s.pqt_prt_01.value = some v1) (hv2 : s.pqt_prt_02.value = some v2)
    (hne : get_partition_lst w.root (pyJoin (pyJoin p v1) v2) ≠ []) :
    t.pqt_prt_03.enabled = true ∧
      t.pqt_prt_03.filterList = get_partition_lst w.root (pyJoin (pyJoin p v1) v2) ∧
      t.pqt_prt_03.filterType = some "ValueList" := by
  subst hp
  unfold partitionThreeBlock at h
  split at h
  case isTrue =>
    split at h
    case h_1 heq => cases heq
    case h_2 p' heq =>
      injection heq with heq'
      subst heq'
      split at h
      case h_1 heq2 => rw [hv1] at heq2; cases heq2
      case h_2 v' heq2 =>
        rw [hv1] at heq2
        injection heq2 with heq2'
        subst heq2'
        split at h
        case h_1 heq3 => rw [hv2] at heq3; cases heq3
        case h_2 v'' heq3 =>
          rw [hv2] at heq3
          injection heq3 with heq3'
          subst heq3'
          dsimp only at h
          split at h <;>
            (injection h with h'; subst h')
          all_goals simp_all [List.length_eq_zero]
  case isFalse hc => exact absurd ha hc

theorem update_ok_decomp (w : World) (s s' : PqtToFcState)
    (h : updateParameters w s = Except.ok s') :
    ∃ pPth s₂ s₃ s₄,
      parquetPathBlock w s = Except.ok (s₂, pPth) ∧
      partitionTwoBlock w s₂ pPth = Except.ok s₃ ∧
      partitionThreeBlock w s₃ pPth = Except.ok s₄ ∧
      s' = pureTail w s₄ := by
  unfold updateParameters at h
  split at h
  case h_1 => cases h
  case h_2 s₁ heq1 =>
    have hs₁ : s₁ = s := prepopOutput_ok s s₁ heq1
    subst hs₁
    split at h
    case h_1 => cases h
    case h_2 s₂ pPth heq2 =>
      split at h
      case h_1 => cases h
      case h_2 s₃ heq3 =>
        split at h
        case h_1 => cases h
        case h_2 s₄ heq4 =>
          injection h with h'
          exact ⟨pPth, s₂, s₃, s₄, heq2, heq3, heq4, h'.symm⟩

theorem sampleBlock_spec (s : PqtToFcState) (hm : s.smpl_cnt.errorMessage = none) :
    ((sampleBlock s).smpl_cnt.errorMessage = some sampleCountMsg ↔
      (s.smpl.value = some true ∧
        (s.smpl_cnt.value = none ∨ ∃ n, s.smpl_cnt.value = some n ∧ n < 1))) ∧
    (s.smpl.altered = true → s.smpl.value = some false →
      (s.smpl_cnt.value = none ∨ ∃ n, s.smpl_cnt.value = some n ∧ n < 1) →
      (sampleBlock s).smpl_cnt.value = some 100) := by
  unfold sampleBlock
  rcases hsv : s.smpl.value with _ | b
  case none =>
    rcases hcv : s.smpl_cnt.value with _ | n <;>
      cases hal : s.smpl.altered <;>
        simp [hsv, hcv, hal, cntLtOne, hm]
  case some =>
    cases b
    case false =>
      rcases hcv : s.smpl_cnt.value with _ | n <;>
        cases hal : s.smpl.altered <;>
          simp [hsv, hcv, hal, cntLtOne, hm]
      by_cases hn : n < 1 <;> simp [hn]
    case true =>
      rcases hcv : s.smpl_cnt.value with _ | n <;>
        cases hal : s.smpl.altered <;>
          simp [hsv, hcv, hal, cntLtOne, hm]
      all_goals by_cases hn : n < 1 <;> simp [hn, hm]

theorem setColumnFilters_filterLists (w : World) (s : PqtToFcState) (p : List String)
    (ha : s.pqt_pth.altered = true) (hv : s.pqt_pth.value = some p) :
    (setColumnFilters w s).geom_col.filterList = w.schemaNames p ∧
      (setColumnFilters w s).x_col.filterList = w.schemaNames p ∧
      (setColumnFilters w s).y_col.filterList = w.schemaNames p ∧
      (setColumnFilters w s).h3_col.filterList = w.schemaNames p := by
  unfold setColumnFilters
  simp [ha, hv]

theorem columnDefaults_eq (w : World) (s : PqtToFcState) (p : List String)
    (ha : s.pqt_pth.altered = true) (hv : s.pqt_pth.value = some p) :
    columnDefaults w s =
      (lastMatch isWkbCol (w.schemaNames p), lastMatch isLonCol (w.schemaNames p),
        lastMatch isLatCol (w.schemaNames p), lastMatch isH3Col (w.schemaNames p)) := by
  unfold columnDefaults
  simp [ha, hv]

theorem columnDefaults_congr (w : World) (s t : PqtToFcState) (h : s.pqt_pth = t.pqt_pth) :
    columnDefaults w s = columnDefaults w t := by
  unfold columnDefaults
  rw [h]

theorem geomTypeBlock_coords (s : PqtToFcState) (gV xV yV hV : Option String)
    (halt : s.geom_type.altered = true ∨ s.pqt_pth.altered = true)
    (hg : s.geom_type.value = some "COORDINATES") :
    (geomTypeBlock s gV xV yV hV).x_col.enabled = true ∧
      (geomTypeBlock s gV xV yV hV).x_col.paramType = ParamType.required ∧
      (geomTypeBlock s gV xV yV hV).x_col.value =
        (if s.x_col.value.isNone then xV else s.x_col.value) ∧
      (geomTypeBlock s gV xV yV hV).y_col.enabled = true ∧
      (geomTypeBlock s gV xV yV hV).y_col.paramType = ParamType.required ∧
      (geomTypeBlock s gV xV yV hV).y_col.value =
        (if s.y_col.value.isNone then yV else s.y_col.value) ∧
      (geomTypeBlock s gV xV yV hV).geom_col.enabled = false ∧
      (geomTypeBlock s gV xV yV hV).geom_col.paramType = ParamType.optional ∧
      (geomTypeBlock s gV xV yV hV).geom_col.value = s.geom_col.value ∧
      (geomTypeBlock s gV xV yV hV).h3_col.enabled = false ∧
      (geomTypeBlock s gV xV yV hV).h3_col.paramType = ParamType.optional ∧
      (geomTypeBlock s gV xV yV hV).h3_col.value = s.h3_col.value := by
  have hcond : (s.geom_type.altered || s.pqt_pth.altered) = true := by
    rcases halt with h | h <;> simp [h]
  unfold geomTypeBlock deactivate_parameter
  simp only [hcond, hg, if_true]
  repeat' split
  all_goals simp_all

theorem geomTypeBlock_h3Case (s : PqtToFcState) (gV xV yV hV : Option String)
    (halt : s.geom_type.altered = true ∨ s.pqt_pth.altered = true)
    (hg : s.geom_type.value = some "H3") :
    (geomTypeBlock s gV xV yV hV).h3_col.enabled = true ∧
      (geomTypeBlock s gV xV yV hV).h3_col.paramType = ParamType.required ∧
      (geomTypeBlock s gV xV yV hV).h3_col.value =
        (if s.h3_col.value.isNone then hV else s.h3_col.value) ∧
      (geomTypeBlock s gV xV yV hV).geom_col.enabled = false ∧
      (geomTypeBlock s gV xV yV hV).geom_col.paramType = ParamType.optional ∧
      (geomTypeBlock s gV xV yV hV).geom_col.value = s.geom_col.value ∧
      (geomTypeBlock s gV xV yV hV).x_col.enabled = false ∧
      (geomTypeBlock s gV xV yV hV).x_col.paramType = ParamType.optional ∧
      (geomTypeBlock s gV xV yV hV).x_col.value = s.x_col.value ∧
      (geomTypeBlock s gV xV yV hV).y_col.enabled = false ∧
      (geomTypeBlock s gV xV yV hV).y_col.paramType = ParamType.optional ∧
      (geomTypeBlock s gV xV yV hV).y_col.value = s.y_col.value := by
  have hcond : (s.geom_type.altered || s.pqt_pth.altered) = true := by
    rcases halt with h | h <;> simp [h]
  unfold geomTypeBlock deactivate_parameter
  simp only [hcond, hg, if_true]
  repeat' split
  all_goals simp_all

theorem geomTypeBlock_otherCase (s : PqtToFcState) (gV xV yV hV : Option String)
    (halt : s.geom_type.altered = true ∨ s.pqt_pth.altered = true)
    (hg1 : s.geom_type.value ≠ some "COORDINATES") (hg2 : s.geom_type.value ≠ some "H3") :
    (geomTypeBlock s gV xV yV hV).geom_col.enabled = true ∧
      (geomTypeBlock s gV xV yV hV).geom_col.paramType = ParamType.required ∧
      (geomTypeBlock s gV xV yV hV).geom_col.value =
        (if s.geom_col.value.isNone then gV else s.geom_col.value) ∧
      (geomTypeBlock s gV xV yV hV).x_col.enabled = false ∧
      (geomTypeBlock s gV xV yV hV).x_col.paramType = ParamType.optional ∧
      (geomTypeBlock s gV xV yV hV).x_col.value = s.x_col.value ∧
      (geomTypeBlock s gV xV yV hV).y_col.enabled = false ∧
      (geomTypeBlock s gV xV yV hV).y_col.paramType = ParamType.optional ∧
      (geomTypeBlock s gV xV yV hV).y_col.value = s.y_col.value ∧
      (geomTypeBlock s gV xV yV hV).h3_col.enabled = false ∧
      (geomTypeBlock s gV xV yV hV).h3_col.paramType = ParamType.optional ∧
      (geomTypeBlock s gV xV yV hV).h3_col.value = s.h3_col.value := by
  have hcond : (s.geom_type.altered || s.pqt_pth.altered) = true := by
    rcases halt with h | h <;> simp [h]
  unfold geomTypeBlock deactivate_parameter
  simp only [hcond, if_true]
  rw [if_neg, if_neg]
  · repeat' split
    all_goals simp_all
  · simp [hg2]
  · simp [hg1]

theorem pstem_ne_empty (n : String) (h : n ≠ "") : pstem n ≠ "" := by
  unfold pstem
  split
  case h_1 i hdp =>
    split
    case isTrue hcond =>
      intro hc
      have hdata : n.data.take i = [] := congrArg String.data hc
      have hlen : (n.data.take i).length = 0 := by rw [hdata]; rfl
      rw [List.length_take] at hlen
      obtain ⟨h1, h2⟩ := hcond
      rcases Nat.min_eq_zero_iff.mp hlen with h0 | h0 <;> omega
    case isFalse => exact h
  case h_2 => exact h

theorem ename_ne (e : FSEntry) (hw : wfEntry e = true) : ename e ≠ "" := by
  cases e with
  | file n =>
    rw [wfEntry] at hw
    simpa [ename, bne] using hw
  | dir n cs =>
    rw [wfEntry] at hw
    simp only [Bool.and_eq_true] at hw
    simpa [ename, bne] using hw.1

theorem wfList_mem (cs : List FSEntry) (e : FSEntry) (hw : wfList cs = true) (he : e ∈ cs) :
    wfEntry e = true := by
  induction cs with
  | nil => cases he
  | cons d ds ih =>
    rw [wfList] at hw
    simp only [Bool.and_eq_true] at hw
    rcases List.mem_cons.mp he with rfl | hm
    · exact hw.1
    · exact ih hw.2 hm

theorem findEntry_wf (q : List String) : ∀ (root e : FSEntry),
    wfEntry root = true → findEntry root q = some e → wfEntry e = true := by
  induction q with
  | nil =>
    intro root e hw h
    simp only [findEntry] at h
    injection h with h'
    exact h' ▸ hw
  | cons seg rest ih =>
    intro root e hw h
    cases root with
    | file n => cases h
    | dir n cs =>
      unfold findEntry at h
      split at h
      case h_1 c hc =>
        have hcw : wfEntry c = true := by
          rw [wfEntry] at hw
          simp only [Bool.and_eq_true] at hw
          exact wfList_mem cs c hw.2 (List.mem_of_find?_eq_some hc)
        exact ih c e hcw h
      case h_2 => cases h

theorem childrenAt_wf (root : FSEntry) (q : List String) (hw : wfEntry root = true) :
    wfList (childrenAt root q) = true := by
  unfold childrenAt
  split
  case h_1 e n cs heq =>
    have := findEntry_wf q root (FSEntry.dir n cs) hw heq
    rw [wfEntry] at this
    simp only [Bool.and_eq_true] at this
    exact this.2
  case h_2 => rfl

theorem filter_stem_eq (cs : List FSEntry) (hw : wfList cs = true) :
    cs.filter (fun p => isDir p && pstem (ename p) != "") = cs.filter isDir := by
  induction cs with
  | nil => rfl
  | cons d ds ih =>
    rw [wfList] at hw
    simp only [Bool.and_eq_true] at hw
    have hst : (pstem (ename d) != "") = true := by
      have := pstem_ne_empty (ename d) (ename_ne d hw.1)
      simpa [bne] using this
    rw [List.filter_cons, List.filter_cons]
    simp only [hst, Bool.and_true]
    cases hd : isDir d <;> simp [hd, ih hw.2]

theorem get_partition_lst_eq (root : FSEntry) (q : List String) (hw : wfEntry root = true) :
    get_partition_lst root q = (dirChildNames root q).map pstem := by
  unfold get_partition_lst dirChildNames
  rw [filter_stem_eq _ (childrenAt_wf root q hw)]
  rw [List.map_map]
  rfl

theorem foldl_some (p : String → Bool) : ∀ (l : List String) (a : String),
    ∃ c, l.foldl (fun acc c => if p c then some c else acc) (some a) = some c := by
  intro l
  induction l with
  | nil => intro a; exact ⟨a, rfl⟩
  | cons d ds ih =>
    intro a
    simp only [List.foldl_cons]
    cases hd : p d
    · simp only [hd, Bool.false_eq_true, if_false]
      exact ih a
    · simp only [hd, if_true]
      exact ih d

theorem foldl_mem (p : String → Bool) : ∀ (l : List String) (acc : Option String) (c : String),
    l.foldl (fun acc c => if p c then some c else acc) acc = some c →
    acc = some c ∨ (c ∈ l ∧ p c = true) := by
  intro l
  induction l with
  | nil => intro acc c h; exact Or.inl h
  | cons d ds ih =>
    intro acc c h
    simp only [List.foldl_cons] at h
    rcases ih _ c h with hacc | hml
    · cases hd : p d
      · rw [hd] at hacc
        simp only [Bool.false_eq_true, if_false] at hacc
        exact Or.inl hacc
      · rw [hd] at hacc
        simp only [if_true] at hacc
        injection hacc with hdc
        exact Or.inr ⟨hdc ▸ List.mem_cons_self d ds, hdc ▸ hd⟩
    · exact Or.inr ⟨List.mem_cons_of_mem d hml.1, hml.2⟩

theorem foldl_some_of_mem (p : String → Bool) : ∀ (l : List String) (acc : Option String)
    (c0 : String), c0 ∈ l → p c0 = true →
    ∃ c, l.foldl (fun acc c => if p c then some c else acc) acc = some c := by
  intro l
  induction l with
  | nil => intro acc c0 h; cases h
  | cons d ds ih =>
    intro acc c0 hm hp
    simp only [List.foldl_cons]
    rcases List.mem_cons.mp hm with rfl | hm'
    · simp only [hp, if_true]
      exact foldl_some p ds c0
    · cases hd : p d
      · simp only [hd, Bool.false_eq_true, if_false]
        exact ih acc c0 hm' hp
      · simp only [hd, if_true]
        exact foldl_some p ds d

theorem lastMatch_spec (p : String → Bool) (l : List String)
    (hx : ∃ c0 ∈ l, p c0 = true) : ∃ c, lastMatch p l = some c ∧ c ∈ l ∧ p c = true := by
  obtain ⟨c0, hc0m, hc0p⟩ := hx
  obtain ⟨c, hc⟩ := foldl_some_of_mem p l none c0 hc0m hc0p
  rcases foldl_mem p l none c hc with habs | hgood
  · cases habs
  · exact ⟨c, hc, hgood⟩

/-! Composite lemmas about `pureTail`, the crash-free suffix of
    `updateParameters`. -/

theorem pureTail_pqt_pth (w : World) (s : PqtToFcState) :
    (pureTail w s).pqt_pth = s.pqt_pth := by
  unfold pureTail
  dsimp only
  rw [schemaFileBlock_pqt_pth, geomTypeBlock_pqt_pth, setColumnFilters_pqt_pth,
    sampleBlock_pqt_pth]

theorem pureTail_pqt_prt_01 (w : World) (s : PqtToFcState) :
    (pureTail w s).pqt_prt_01 = s.pqt_prt_01 := by
  unfold pureTail
  dsimp only
  rw [schemaFileBlock_pqt_prt_01, geomTypeBlock_pqt_prt_01, setColumnFilters_pqt_prt_01,
    sampleBlock_pqt_prt_01]

theorem pureTail_pqt_prt_02 (w : World) (s : PqtToFcState) :
    (pureTail w s).pqt_prt_02 = s.pqt_prt_02 := by
  unfold pureTail
  dsimp only
  rw [schemaFileBlock_pqt_prt_02, geomTypeBlock_pqt_prt_02, setColumnFilters_pqt_prt_02,
    sampleBlock_pqt_prt_02]

theorem pureTail_pqt_prt_03 (w : World) (s : PqtToFcState) :
    (pureTail w s).pqt_prt_03 = s.pqt_prt_03 := by
  unfold pureTail
  dsimp only
  rw [schemaFileBlock_pqt_prt_03, geomTypeBlock_pqt_prt_03, setColumnFilters_pqt_prt_03,
    sampleBlock_pqt_prt_03]

theorem pureTail_smpl_cnt (w : World) (s : PqtToFcState) :
    (pureTail w s).smpl_cnt = (sampleBlock s).smpl_cnt := by
  unfold pureTail
  dsimp only
  rw [schemaFileBlock_smpl_cnt, geomTypeBlock_smpl_cnt, setColumnFilters_smpl_cnt]

theorem sampleColumn_pqt_pth (w : World) (s : PqtToFcState) :
    (setColumnFilters w (sampleBlock s)).pqt_pth = s.pqt_pth := by
  rw [setColumnFilters_pqt_pth, sampleBlock_pqt_pth]

theorem sampleColumn_geom_type (w : World) (s : PqtToFcState) :
    (setColumnFilters w (sampleBlock s)).geom_type = s.geom_type := by
  rw [setColumnFilters_geom_type, sampleBlock_geom_type]

theorem pureTail_geom_col_filterList (w : World) (s : PqtToFcState) (p : List String)
    (ha : s.pqt_pth.altered = true) (hv : s.pqt_pth.value = some p) :
    (pureTail w s).geom_col.filterList = w.schemaNames p := by
  unfold pureTail
  dsimp only
  rw [schemaFileBlock_geom_col, geomTypeBlock_geom_col_filterList]
  exact (setColumnFilters_filterLists w (sampleBlock s) p
    (by rw [sampleBlock_pqt_pth]; exact ha) (by rw [sampleBlock_pqt_pth]; exact hv)).1

theorem pureTail_geom_col_value_other (w : World) (s : PqtToFcState) (p : List String)
    (ha : s.pqt_pth.altered = true) (hv : s.pqt_pth.value = some p)
    (hg1 : s.geom_type.value ≠ some "COORDINATES") (hg2 : s.geom_type.value ≠ some "H3") :
    (pureTail w s).geom_col.value =
      (if s.geom_col.value.isNone then lastMatch isWkbCol (w.schemaNames p)
        else s.geom_col.value) := by
  unfold pureTail
  dsimp only
  rw [schemaFileBlock_geom_col]
  have h6pth := sampleColumn_pqt_pth w s
  have h6gt := sampleColumn_geom_type w s
  have h6val : (setColumnFilters w (sampleBlock s)).geom_col.value = s.geom_col.value := by
    rw [setColumnFilters_geom_col_value, sampleBlock_geom_col]
  have hd := columnDefaults_eq w (setColumnFilters w (sampleBlock s)) p
    (by rw [h6pth]; exact ha) (by rw [h6pth]; exact hv)
  have hother := geomTypeBlock_otherCase (setColumnFilters w (sampleBlock s))
    (columnDefaults w (setColumnFilters w (sampleBlock s))).1
    (columnDefaults w (setColumnFilters w (sampleBlock s))).2.1
    (columnDefaults w (setColumnFilters w (sampleBlock s))).2.2.1
    (columnDefaults w (setColumnFilters w (sampleBlock s))).2.2.2
    (Or.inr (by rw [h6pth]; exact ha)) (by rw [h6gt]; exact hg1) (by rw [h6gt]; exact hg2)
  rw [hother.2.2.1, h6val, hd]

theorem pureTail_xy_value_coords (w : World) (s : PqtToFcState) (p : List String)
    (ha : s.pqt_pth.altered = true) (hv : s.pqt_pth.value = some p)
    (hg : s.geom_type.value = some "COORDINATES") :
    (pureTail w s).x_col.value =
      (if s.x_col.value.isNone then lastMatch isLonCol (w.schemaNames p) else s.x_col.value) ∧
    (pureTail w s).y_col.value =
      (if s.y_col.value.isNone then lastMatch isLatCol (w.schemaNames p) else s.y_col.value) := by
  unfold pureTail
  dsimp only
  rw [schemaFileBlock_x_col, schemaFileBlock_y_col]
  have h6pth := sampleColumn_pqt_pth w s
  have h6gt := sampleColumn_geom_type w s
  have h6x : (setColumnFilters w (sampleBlock s)).x_col.value = s.x_col.value := by
    rw [setColumnFilters_x_col_value, sampleBlock_x_col]
  have h6y : (setColumnFilters w (sampleBlock s)).y_col.value = s.y_col.value := by
    rw [setColumnFilters_y_col_value, sampleBlock_y_col]
  have hd := columnDefaults_eq w (setColumnFilters w (sampleBlock s)) p
    (by rw [h6pth]; exact ha) (by rw [h6pth]; exact hv)
  have hc := geomTypeBlock_coords (setColumnFilters w (sampleBlock s))
    (columnDefaults w (setColumnFilters w (sampleBlock s))).1
    (columnDefaults w (setColumnFilters w (sampleBlock s))).2.1
    (columnDefaults w (setColumnFilters w (sampleBlock s))).2.2.1
    (columnDefaults w (setColumnFilters w (sampleBlock s))).2.2.2
    (Or.inr (by rw [h6pth]; exact ha)) (by rw [h6gt]; exact hg)
  constructor
  · rw [hc.2.2.1, h6x, hd]
  · rw [hc.2.2.2.2.2.1, h6y, hd]

theorem pureTail_h3_value (w : World) (s : PqtToFcState) (p : List String)
    (ha : s.pqt_pth.altered = true) (hv : s.pqt_pth.value = some p)
    (hg : s.geom_type.value = some "H3") :
    (pureTail w s).h3_col.value =
      (if s.h3_col.value.isNone then lastMatch isH3Col (w.schemaNames p)
        else s.h3_col.value) := by
  unfold pureTail
  dsimp only
  rw [schemaFileBlock_h3_col]
  have h6pth := sampleColumn_pqt_pth w s
  have h6gt := sampleColumn_geom_type w s
  have h6h : (setColumnFilters w (sampleBlock s)).h3_col.value = s.h3_col.value := by
    rw [setColumnFilters_h3_col_value, sampleBlock_h3_col]
  have hd := columnDefaults_eq w (setColumnFilters w (sampleBlock s)) p
    (by rw [h6pth]; exact ha) (by rw [h6pth]; exact hv)
  have hc := geomTypeBlock_h3Case (setColumnFilters w (sampleBlock s))
    (columnDefaults w (setColumnFilters w (sampleBlock s))).1
    (columnDefaults w (setColumnFilters w (sampleBlock s))).2.1
    (columnDefaults w (setColumnFilters w (sampleBlock s))).2.2.1
    (columnDefaults w (setColumnFilters w (sampleBlock s))).2.2.2
    (Or.inr (by rw [h6pth]; exact ha)) (by rw [h6gt]; exact hg)
  rw [hc.2.2.1, h6h, hd]

theorem pureTail_coords_flags (w : World) (s : PqtToFcState)
    (halt : s.geom_type.altered = true ∨ s.pqt_pth.altered = true)
    (hg : s.geom_type.value = some "COORDINATES") :
    (pureTail w s).x_col.enabled = true ∧
      (pureTail w s).x_col.paramType = ParamType.required ∧
      (pureTail w s).y_col.enabled = true ∧
      (pureTail w s).y_col.paramType = ParamType.required ∧
      (pureTail w s).geom_col.enabled = false ∧
      (pureTail w s).geom_col.paramType = ParamType.optional ∧
      (pureTail w s).h3_col.enabled = false ∧
      (pureTail w s).h3_col.paramType = ParamType.optional := by
  unfold pureTail
  dsimp only
  rw [schemaFileBlock_x_col, schemaFileBlock_y_col, schemaFileBlock_geom_col,
    schemaFileBlock_h3_col]
  have halt6 : (setColumnFilters w (sampleBlock s)).geom_type.altered = true ∨
      (setColumnFilters w (sampleBlock s)).pqt_pth.altered = true := by
    rw [sampleColumn_geom_type, sampleColumn_pqt_pth]
    exact halt
  obtain ⟨hxe, hxp, hxv, hye, hyq, hyv, hge, hgp, hgv, hhe, hhp, hhv⟩ :=
    geomTypeBlock_coords (setColumnFilters w (sampleBlock s))
      (columnDefaults w (setColumnFilters w (sampleBlock s))).1
      (columnDefaults w (setColumnFilters w (sampleBlock s))).2.1
      (columnDefaults w (setColumnFilters w (sampleBlock s))).2.2.1
      (columnDefaults w (setColumnFilters w (sampleBlock s))).2.2.2
      halt6 (by rw [sampleColumn_geom_type]; exact hg)
  exact ⟨hxe, hxp, hye, hyq, hge, hgp, hhe, hhp⟩

theorem pureTail_h3_flags (w : World) (s : PqtToFcState)
    (halt : s.geom_type.altered = true ∨ s.pqt_pth.altered = true)
    (hg : s.geom_type.value = some "H3") :
    (pureTail w s).h3_col.enabled = true ∧
      (pureTail w s).h3_col.paramType = ParamType.required ∧
      (pureTail w s).geom_col.enabled = false ∧
      (pureTail w s).geom_col.paramType = ParamType.optional ∧
      (pureTail w s).x_col.enabled = false ∧
      (pureTail w s).x_col.paramType = ParamType.optional ∧
      (pureTail w s).y_col.enabled = false ∧
      (pureTail w s).y_col.paramType = ParamType.optional := by
  unfold pureTail
  dsimp only
  rw [schemaFileBlock_x_col, schemaFileBlock_y_col, schemaFileBlock_geom_col,
    schemaFileBlock_h3_col]
  have halt6 : (setColumnFilters w (sampleBlock s)).geom_type.altered = true ∨
      (setColumnFilters w (sampleBlock s)).pqt_pth.altered = true := by
    rw [sampleColumn_geom_type, sampleColumn_pqt_pth]
    exact halt
  obtain ⟨hhe, hhp, hhv, hge, hgp, hgv, hxe, hxp, hxv, hye, hyq, hyv⟩ :=
    geomTypeBlock_h3Case (setColumnFilters w (sampleBlock s))
      (columnDefaults w (setColumnFilters w (sampleBlock s))).1
      (columnDefaults w (setColumnFilters w (sampleBlock s))).2.1
      (columnDefaults w (setColumnFilters w (sampleBlock s))).2.2.1
      (columnDefaults w (setColumnFilters w (sampleBlock s))).2.2.2
      halt6 (by rw [sampleColumn_geom_type]; exact hg)
  exact ⟨hhe, hhp, hge, hgp, hxe, hxp, hye, hyq⟩

theorem pureTail_other_flags (w : World) (s : PqtToFcState)
    (halt : s.geom_type.altered = true ∨ s.pqt_pth.altered = true)
    (hg1 : s.geom_type.value ≠ some "COORDINATES") (hg2 : s.geom_type.value ≠ some "H3") :
    (pureTail w s).geom_col.enabled = true ∧
      (pureTail w s).geom_col.paramType = ParamType.required ∧
      (pureTail w s).x_col.enabled = false ∧
      (pureTail w s).x_col.paramType = ParamType.optional ∧
      (pureTail w s).y_col.enabled = false ∧
      (pureTail w s).y_col.paramType = ParamType.optional ∧
      (pureTail w s).h3_col.enabled = false ∧
      (pureTail w s).h3_col.paramType = ParamType.optional := by
  unfold pureTail
  dsimp only
  rw [schemaFileBlock_x_col, schemaFileBlock_y_col, schemaFileBlock_geom_col,
    schemaFileBlock_h3_col]
  have halt6 : (setColumnFilters w (sampleBlock s)).geom_type.altered = true ∨
      (setColumnFilters w (sampleBlock s)).pqt_pth.altered = true := by
    rw [sampleColumn_geom_type, sampleColumn_pqt_pth]
    exact halt
  obtain ⟨hge, hgp, hgv, hxe, hxp, hxv, hye, hyq, hyv, hhe, hhp, hhv⟩ :=
    geomTypeBlock_otherCase (setColumnFilters w (sampleBlock s))
      (columnDefaults w (setColumnFilters w (sampleBlock s))).1
      (columnDefaults w (setColumnFilters w (sampleBlock s))).2.1
      (columnDefaults w (setColumnFilters w (sampleBlock s))).2.2.1
      (columnDefaults w (setColumnFilters w (sampleBlock s))).2.2.2
      halt6 (by rw [sampleColumn_geom_type]; exact hg1)
      (by rw [sampleColumn_geom_type]; exact hg2)
  exact ⟨hge, hgp, hxe, hxp, hye, hyq, hhe, hhp⟩

/-- C1: for a supplied parquet folder, after a completed `updateParameters`
    run the level-one partition dropdown is enabled with option list the
    stems of the folder's immediate child directories whenever at least one
    child directory exists; and for levels two and three, whenever the
    previous level's value has been chosen (the parameter is altered and
    carries a value), the next dropdown is enabled with the child-directory
    stems of the joined path, whenever that list is nonempty. -/
theorem c1_partition_dropdowns (w : World) (s s' : PqtToFcState) (p : List String)
    (hwf : wfEntry w.root = true)
    (hok : updateParameters w s = Except.ok s')
    (ha : s.pqt_pth.altered = true) (hv : s.pqt_pth.value = some p) :
    (dirChildNames w.root p ≠ [] →
      s'.pqt_prt_01.enabled = true ∧
      s'.pqt_prt_01.filterList = (dirChildNames w.root p).map pstem) ∧
    (∀ v1, s.pqt_prt_01.altered = true → s.pqt_prt_01.value = some v1 →
      dirChildNames w.root (pyJoin p v1) ≠ [] →
      s'.pqt_prt_02.enabled = true ∧
      s'.pqt_prt_02.filterList = (dirChildNames w.root (pyJoin p v1)).map pstem) ∧
    (∀ v1 v2, s.pqt_prt_02.altered = true → s.pqt_prt_01.value = some v1 →
      s.pqt_prt_02.value = some v2 →
      dirChildNames w.root (pyJoin (pyJoin p v1) v2) ≠ [] →
      s'.pqt_prt_03.enabled = true ∧
      s'.pqt_prt_03.filterList = (dirChildNames w.root (pyJoin (pyJoin p v1) v2)).map pstem) := by
  obtain ⟨pPth, s₂, s₃, s₄, h2, h3, h4, hTail⟩ := update_ok_decomp w s s' hok
  have hpp : pPth = some p := parquetPathBlock_pp w s s₂ pPth p h2 ha hv
  obtain ⟨f2_02, f2_03, f2_smpl, f2_cnt, f2_gc, f2_gt, f2_x, f2_y, f2_h3, f2_pv, f2_pa,
    f2_01v, f2_01a⟩ := parquetPathBlock_frame w s s₂ pPth h2
  obtain ⟨f3_pth, f3_01, f3_03, f3_smpl, f3_cnt, f3_gc, f3_gt, f3_x, f3_y, f3_h3,
    f3_02v, f3_02a⟩ := partitionTwoBlock_frame w s₂ s₃ pPth h3
  obtain ⟨f4_pth, f4_01, f4_02, f4_smpl, f4_cnt, f4_gc, f4_gt, f4_x, f4_y, f4_h3⟩ :=
    partitionThreeBlock_frame w s₃ s₄ pPth h4
  refine ⟨?_, ?_, ?_⟩
  · intro hne
    have hne' : get_partition_lst w.root p ≠ [] := by
      rw [get_partition_lst_eq w.root p hwf]
      simpa [List.map_eq_nil_iff] using hne
    obtain ⟨he, hl, _⟩ := parquetPathBlock_prt01 w s s₂ pPth p h2 ha hv hne'
    have hs' : s'.pqt_prt_01 = s₂.pqt_prt_01 := by
      rw [hTail, pureTail_pqt_prt_01, f4_01, f3_01]
    rw [hs', he, hl, get_partition_lst_eq w.root p hwf]
    exact ⟨rfl, rfl⟩
  · intro v1 ha1 hv1 hne
    have hne' : get_partition_lst w.root (pyJoin p v1) ≠ [] := by
      rw [get_partition_lst_eq w.root _ hwf]
      simpa [List.map_eq_nil_iff] using hne
    obtain ⟨he, hl, _⟩ := partitionTwoBlock_prt02 w s₂ s₃ pPth p v1 h3
      (by rw [f2_01a]; exact ha1) hpp (by rw [f2_01v]; exact hv1) hne'
    have hs' : s'.pqt_prt_02 = s₃.pqt_prt_02 := by
      rw [hTail, pureTail_pqt_prt_02, f4_02]
    rw [hs', he, hl, get_partition_lst_eq w.root _ hwf]
    exact ⟨rfl, rfl⟩
  · intro v1 v2 ha2 hv1 hv2 hne
    have hne' : get_partition_lst w.root (pyJoin (pyJoin p v1) v2) ≠ [] := by
      rw [get_partition_lst_eq w.root _ hwf]
      simpa [List.map_eq_nil_iff] using hne
    obtain ⟨he, hl, _⟩ := partitionThreeBlock_prt03 w s₃ s₄ pPth p v1 v2 h4
      (by rw [f3_02a, f2_02]; exact ha2) hpp
      (by rw [f3_01, f2_01v]; exact hv1)
      (by rw [f3_02v, f2_02]; exact hv2) hne'
    have hs' : s'.pqt_prt_03 = s₄.pqt_prt_03 := by
      rw [hTail, pureTail_pqt_prt_03]
    rw [hs', he, hl, get_partition_lst_eq w.root _ hwf]
    exact ⟨rfl, rfl⟩

/-- C3: with a parquet folder supplied, a completed `updateParameters`
    leaves the message `Cannot locate parquet "part" files.` on the parquet
    path parameter exactly when no entry matching `part-*.parquet` exists
    anywhere below the folder. -/
theorem c3_part_file_message (w : World) (s s' : PqtToFcState) (p : List String)
    (hok : updateParameters w s = Except.ok s')
    (ha : s.pqt_pth.altered = true) (hv : s.pqt_pth.value = some p)
    (hm : s.pqt_pth.errorMessage = none) :
    (s'.pqt_pth.errorMessage = some cannotLocateMsg ↔
      rglobP w.root p matchPartParquet = []) := by
  obtain ⟨pPth, s₂, s₃, s₄, h2, h3, h4, hTail⟩ := update_ok_decomp w s s' hok
  have hmsg := parquetPathBlock_msg w s s₂ pPth p h2 ha hv hm
  have hf3 := (partitionTwoBlock_frame w s₂ s₃ pPth h3).1
  have hf4 := (partitionThreeBlock_frame w s₃ s₄ pPth h4).1
  have hs' : s'.pqt_pth = s₂.pqt_pth := by
    rw [hTail, pureTail_pqt_pth, hf4, hf3]
  rw [hs']
  exact hmsg

/-- C4: a completed `updateParameters` run leaves the message
    `Sample count must be greater than zero.` on the sample count exactly
    when the export-sample flag is True and the count is missing or below
    one; and switching the flag to False with a missing or below-one count
    resets the count to 100. -/
theorem c4_sample_count (w : World) (s s' : PqtToFcState)
    (hok : updateParameters w s = Except.ok s')
    (hm : s.smpl_cnt.errorMessage = none) :
    ((s'.smpl_cnt.errorMessage = some sampleCountMsg ↔
      (s.smpl.value = some true ∧
        (s.smpl_cnt.value = none ∨ ∃ n, s.smpl_cnt.value = some n ∧ n < 1)))) ∧
    (s.smpl.altered = true → s.smpl.value = some false →
      (s.smpl_cnt.value = none ∨ ∃ n, s.smpl_cnt.value = some n ∧ n < 1) →
      s'.smpl_cnt.value = some 100) := by
  obtain ⟨pPth, s₂, s₃, s₄, h2, h3, h4, hTail⟩ := update_ok_decomp w s s' hok
  obtain ⟨f2_02, f2_03, f2_smpl, f2_cnt, f2_gc, f2_gt, f2_x, f2_y, f2_h3, f2_pv, f2_pa,
    f2_01v, f2_01a⟩ := parquetPathBlock_frame w s s₂ pPth h2
  obtain ⟨f3_pth, f3_01, f3_03, f3_smpl, f3_cnt, f3_gc, f3_gt, f3_x, f3_y, f3_h3,
    f3_02v, f3_02a⟩ := partitionTwoBlock_frame w s₂ s₃ pPth h3
  obtain ⟨f4_pth, f4_01, f4_02, f4_smpl, f4_cnt, f4_gc, f4_gt, f4_x, f4_y, f4_h3⟩ :=
    partitionThreeBlock_frame w s₃ s₄ pPth h4
  have h4smpl : s₄.smpl = s.smpl := by rw [f4_smpl, f3_smpl, f2_smpl]
  have h4cnt : s₄.smpl_cnt = s.smpl_cnt := by rw [f4_cnt, f3_cnt, f2_cnt]
  have hspec := sampleBlock_spec s₄ (by rw [h4cnt]; exact hm)
  rw [h4smpl, h4cnt] at hspec
  have hs' : s'.smpl_cnt = (sampleBlock s₄).smpl_cnt := by
    rw [hTail, pureTail_smpl_cnt]
  rw [hs']
  exact hspec

/-- C2 (code bug): `updateParameters` raises `AttributeError` at
    `fc_name = out_fc_pth.stem` whenever the parquet path is altered while
    the output feature class value is unset, instead of completing with
    only validation messages. -/
theorem c2_update_raises :
    updateParameters wW sBug = Except.error (PyErr.attributeError "stem") := rfl

/-- C5 counterexample: in an environment without the `h3` package the
    geometry-type choice list of `ParquetToFeatureClass` does not offer
    H3, refuting the claim that H3 is offered in every environment. -/
theorem c5_counterexample :
    ¬ "H3" ∈ (parquetToFeatureClass_geom_type false).filterList := by decide

/-- C5 (amended): the `FeatureClassToParquet` geometry-format choice list
    is exactly WKB, WKT, XY with default WKB, and the
    `ParquetToFeatureClass` geometry-type choice list is POINT, POLYLINE,
    POLYGON, COORDINATES, with H3 appended exactly when the `h3` package
    is importable. -/
theorem c5_choice_lists :
    featureClassToParquet_geometry_format.filterList = ["WKB", "WKT", "XY"] ∧
      featureClassToParquet_geometry_format.value = some "WKB" ∧
      (parquetToFeatureClass_geom_type true).filterList =
        ["POINT", "POLYLINE", "POLYGON", "COORDINATES", "H3"] ∧
      (parquetToFeatureClass_geom_type false).filterList =
        ["POINT", "POLYLINE", "POLYGON", "COORDINATES"] := by
  refine ⟨rfl, rfl, rfl, rfl⟩

/-- C6 counterexample: with the parquet path supplied, a schema containing
    a wkb column, the geometry column unset, and the (default) geometry
    type COORDINATES, `updateParameters` completes without setting the
    geometry-column value, refuting the claim that the wkb column is
    always chosen. -/
theorem c6_counterexample :
    sC6.pqt_pth.altered = true ∧ sC6.geom_col.value = none ∧
      (∃ c ∈ wW.schemaNames ["data", "pqt"], isWkbCol c = true) ∧
      updateParameters wW sC6 = Except.ok (updOut wW sC6) ∧
      (updOut wW sC6).geom_col.value = none := by
  refine ⟨rfl, rfl, ⟨"geometry_wkb", by decide, by decide⟩, rfl, rfl⟩

/-- C6 (amended): for a supplied parquet dataset path, after a completed
    `updateParameters` run the geometry-column option list equals the
    dataset schema's column names; and when the geometry-column value was
    previously unset, some schema column contains `wkb` case-insensitively,
    and the geometry type is neither COORDINATES nor H3, the
    geometry-column value is set to such a column. -/
theorem c6_geom_col_default (w : World) (s s' : PqtToFcState) (p : List String)
    (hok : updateParameters w s = Except.ok s')
    (ha : s.pqt_pth.altered = true) (hv : s.pqt_pth.value = some p) :
    s'.geom_col.filterList = w.schemaNames p ∧
      (s.geom_col.value = none →
        s.geom_type.value ≠ some "COORDINATES" →
        s.geom_type.value ≠ some "H3" →
        (∃ c ∈ w.schemaNames p, isWkbCol c = true) →
        ∃ c, s'.geom_col.value = some c ∧ c ∈ w.schemaNames p ∧ isWkbCol c = true) := by
  obtain ⟨pPth, s₂, s₃, s₄, h2, h3, h4, hTail⟩ := update_ok_decomp w s s' hok
  obtain ⟨f2_02, f2_03, f2_smpl, f2_cnt, f2_gc, f2_gt, f2_x, f2_y, f2_h3, f2_pv, f2_pa,
    f2_01v, f2_01a⟩ := parquetPathBlock_frame w s s₂ pPth h2
  obtain ⟨f3_pth, f3_01, f3_03, f3_smpl, f3_cnt, f3_gc, f3_gt, f3_x, f3_y, f3_h3,
    f3_02v, f3_02a⟩ := partitionTwoBlock_frame w s₂ s₃ pPth h3
  obtain ⟨f4_pth, f4_01, f4_02, f4_smpl, f4_cnt, f4_gc, f4_gt, f4_x, f4_y, f4_h3⟩ :=
    partitionThreeBlock_frame w s₃ s₄ pPth h4
  have h4a : s₄.pqt_pth.altered = true := by rw [f4_pth, f3_pth, f2_pa]; exact ha
  have h4v : s₄.pqt_pth.value = some p := by rw [f4_pth, f3_pth, f2_pv]; exact hv
  have h4gc : s₄.geom_col = s.geom_col := by rw [f4_gc, f3_gc, f2_gc]
  have h4gt : s₄.geom_type = s.geom_type := by rw [f4_gt, f3_gt, f2_gt]
  constructor
  · rw [hTail, pureTail_geom_col_filterList w s₄ p h4a h4v]
  · intro hnone hg1 hg2 hex
    have hval := pureTail_geom_col_value_other w s₄ p h4a h4v
      (by rw [h4gt]; exact hg1) (by rw [h4gt]; exact hg2)
    rw [h4gc, hnone] at hval
    simp only [Option.isNone_none, if_true] at hval
    obtain ⟨c, hc, hcm, hcp⟩ := lastMatch_spec isWkbCol (w.schemaNames p) hex
    refine ⟨c, ?_, hcm, hcp⟩
    rw [hTail, hval, hc]

/-- C7: for a supplied parquet dataset path with geometry type COORDINATES
    the longitude and latitude columns default, when previously unset, to
    schema columns whose lowercased names are among x/lon/longitude and
    y/lat/latitude respectively, and keep their values otherwise; with
    geometry type H3 the H3 column defaults, when previously unset, to a
    schema column whose lowercased name starts with h3. -/
theorem c7_column_defaults (w : World) (s s' : PqtToFcState) (p : List String)
    (hok : updateParameters w s = Except.ok s')
    (ha : s.pqt_pth.altered = true) (hv : s.pqt_pth.value = some p) :
    (s.geom_type.value = some "COORDINATES" →
      (s.x_col.value = none → (∃ c ∈ w.schemaNames p, isLonCol c = true) →
        ∃ c, s'.x_col.value = some c ∧ c ∈ w.schemaNames p ∧ isLonCol c = true) ∧
      (∀ v, s.x_col.value = some v → s'.x_col.value = some v) ∧
      (s.y_col.value = none → (∃ c ∈ w.schemaNames p, isLatCol c = true) →
        ∃ c, s'.y_col.value = some c ∧ c ∈ w.schemaNames p ∧ isLatCol c = true) ∧
      (∀ v, s.y_col.value = some v → s'.y_col.value = some v)) ∧
    (s.geom_type.value = some "H3" →
      (s.h3_col.value = none → (∃ c ∈ w.schemaNames p, isH3Col c = true) →
        ∃ c, s'.h3_col.value = some c ∧ c ∈ w.schemaNames p ∧ isH3Col c = true) ∧
      (∀ v, s.h3_col.value = some v → s'.h3_col.value = some v)) := by
  obtain ⟨pPth, s₂, s₃, s₄, h2, h3, h4, hTail⟩ := update_ok_decomp w s s' hok
  obtain ⟨f2_02, f2_03, f2_smpl, f2_cnt, f2_gc, f2_gt, f2_x, f2_y, f2_h3, f2_pv, f2_pa,
    f2_01v, f2_01a⟩ := parquetPathBlock_frame w s s₂ pPth h2
  obtain ⟨f3_pth, f3_01, f3_03, f3_smpl, f3_cnt, f3_gc, f3_gt, f3_x, f3_y, f3_h3,
    f3_02v, f3_02a⟩ := partitionTwoBlock_frame w s₂ s₃ pPth h3
  obtain ⟨f4_pth, f4_01, f4_02, f4_smpl, f4_cnt, f4_gc, f4_gt, f4_x, f4_y, f4_h3⟩ :=
    partitionThreeBlock_frame w s₃ s₄ pPth h4
  have h4a : s₄.pqt_pth.altered = true := by rw [f4_pth, f3_pth, f2_pa]; exact ha
  have h4v : s₄.pqt_pth.value = some p := by rw [f4_pth, f3_pth, f2_pv]; exact hv
  have h4gt : s₄.geom_type = s.geom_type := by rw [f4_gt, f3_gt, f2_gt]
  have h4x : s₄.x_col = s.x_col := by rw [f4_x, f3_x, f2_x]
  have h4y : s₄.y_col = s.y_col := by rw [f4_y, f3_y, f2_y]
  have h4h : s₄.h3_col = s.h3_col := by rw [f4_h3, f3_h3, f2_h3]
  constructor
  · intro hg
    obtain ⟨hxv, hyv⟩ := pureTail_xy_value_coords w s₄ p h4a h4v (by rw [h4gt]; exact hg)
    rw [h4x] at hxv
    rw [h4y] at hyv
    refine ⟨?_, ?_, ?_, ?_⟩
    · intro hnone hex
      obtain ⟨c, hc, hcm, hcp⟩ := lastMatch_spec isLonCol (w.schemaNames p) hex
      refine ⟨c, ?_, hcm, hcp⟩
      rw [hTail, hxv, hnone]
      simpa using hc
    · intro v hval
      rw [hTail, hxv, hval]
      simp
    · intro hnone hex
      obtain ⟨c, hc, hcm, hcp⟩ := lastMatch_spec isLatCol (w.schemaNames p) hex
      refine ⟨c, ?_, hcm, hcp⟩
      rw [hTail, hyv, hnone]
      simpa using hc
    · intro v hval
      rw [hTail, hyv, hval]
      simp
  · intro hg
    have hhv := pureTail_h3_value w s₄ p h4a h4v (by rw [h4gt]; exact hg)
    rw [h4h] at hhv
    refine ⟨?_, ?_⟩
    · intro hnone hex
      obtain ⟨c, hc, hcm, hcp⟩ := lastMatch_spec isH3Col (w.schemaNames p) hex
      refine ⟨c, ?_, hcm, hcp⟩
      rw [hTail, hhv, hnone]
      simpa using hc
    · intro v hval
      rw [hTail, hhv, hval]
      simp

/-- C8: after a completed `updateParameters` run in which the geometry
    type or the parquet path was altered, exactly the column group of the
    selected geometry type is enabled and required — longitude/latitude
    for COORDINATES, the H3 column for H3, the geometry column otherwise —
    and every column parameter outside that group is deactivated. -/
theorem c8_column_groups (w : World) (s s' : PqtToFcState)
    (hok : updateParameters w s = Except.ok s')
    (halt : s.geom_type.altered = true ∨ s.pqt_pth.altered = true) :
    (s.geom_type.value = some "COORDINATES" →
      s'.x_col.enabled = true ∧ s'.x_col.paramType = ParamType.required ∧
      s'.y_col.enabled = true ∧ s'.y_col.paramType = ParamType.required ∧
      s'.geom_col.enabled = false ∧ s'.geom_col.paramType = ParamType.optional ∧
      s'.h3_col.enabled = false ∧ s'.h3_col.paramType = ParamType.optional) ∧
    (s.geom_type.value = some "H3" →
      s'.h3_col.enabled = true ∧ s'.h3_col.paramType = ParamType.required ∧
      s'.geom_col.enabled = false ∧ s'.geom_col.paramType = ParamType.optional ∧
      s'.x_col.enabled = false ∧ s'.x_col.paramType = ParamType.optional ∧
      s'.y_col.enabled = false ∧ s'.y_col.paramType = ParamType.optional) ∧
    (s.geom_type.value ≠ some "COORDINATES" → s.geom_type.value ≠ some "H3" →
      s'.geom_col.enabled = true ∧ s'.geom_col.paramType = ParamType.required ∧
      s'.x_col.enabled = false ∧ s'.x_col.paramType = ParamType.optional ∧
      s'.y_col.enabled = false ∧ s'.y_col.paramType = ParamType.optional ∧
      s'.h3_col.enabled = false ∧ s'.h3_col.paramType = ParamType.optional) := by
  obtain ⟨pPth, s₂, s₃, s₄, h2, h3, h4, hTail⟩ := update_ok_decomp w s s' hok
  obtain ⟨f2_02, f2_03, f2_smpl, f2_cnt, f2_gc, f2_gt, f2_x, f2_y, f2_h3, f2_pv, f2_pa,
    f2_01v, f2_01a⟩ := parquetPathBlock_frame w s s₂ pPth h2
  obtain ⟨f3_pth, f3_01, f3_03, f3_smpl, f3_cnt, f3_gc, f3_gt, f3_x, f3_y, f3_h3,
    f3_02v, f3_02a⟩ := partitionTwoBlock_frame w s₂ s₃ pPth h3
  obtain ⟨f4_pth, f4_01, f4_02, f4_smpl, f4_cnt, f4_gc, f4_gt, f4_x, f4_y, f4_h3⟩ :=
    partitionThreeBlock_frame w s₃ s₄ pPth h4
  have h4gt : s₄.geom_type = s.geom_type := by rw [f4_gt, f3_gt, f2_gt]
  have h4pa : s₄.pqt_pth.altered = s.pqt_pth.altered := by rw [f4_pth, f3_pth, f2_pa]
  have halt4 : s₄.geom_type.altered = true ∨ s₄.pqt_pth.altered = true := by
    rw [h4gt, h4pa]
    exact halt
  subst hTail
  refine ⟨?_, ?_, ?_⟩
  · intro hg
    exact pureTail_coords_flags w s₄ halt4 (by rw [h4gt]; exact hg)
  · intro hg
    exact pureTail_h3_flags w s₄ halt4 (by rw [h4gt]; exact hg)
  · intro hg1 hg2
    exact pureTail_other_flags w s₄ halt4 (by rw [h4gt]; exact hg1) (by rw [h4gt]; exact hg2)

/-- C9: in `execute`, the sample count forwarded to
    `parquet_to_feature_class` is None whenever the Export Sample flag is
    not True, regardless of the entered count, and is the count's integer
    value when the flag is True. -/
theorem c9_sample_forwarding (s : PqtToFcState) (args : P2FCArgs)
    (hok : executeP2FC s = Except.ok args) :
    (s.smpl.value ≠ some true → args.sample_count = none) ∧
    (s.smpl.value = some true → args.sample_count = s.smpl_cnt.value) := by
  unfold executeP2FC at hok
  split at hok
  case h_1 => cases hok
  case h_2 smplCnt heq =>
    split at hok
    case h_1 => cases hok
    case h_2 outFc heqo =>
      injection hok with h'
      subst h'
      constructor
      · intro hne
        unfold smplCntArg at heq
        rw [if_neg (by simp [hne])] at heq
        injection heq with h''
        exact h''.symm
      · intro hv
        unfold smplCntArg at heq
        rw [if_pos (by simp [hv])] at heq
        cases hcv : s.smpl_cnt.value with
        | none => rw [hcv] at heq; cases heq
        | some n =>
          rw [hcv] at heq
          injection heq with h''
          exact h''.symm

/-- C10: in `execute`, the partition list forwarded is the three partition
    values in order with unset values removed, and the geometry-column
    argument is the pair longitude/latitude for COORDINATES, the H3 column
    for H3, and the geometry column otherwise. -/
theorem c10_execute_args (s : PqtToFcState) (args : P2FCArgs)
    (hok : executeP2FC s = Except.ok args) :
    args.parquet_partitions =
      [s.pqt_prt_01.value, s.pqt_prt_02.value, s.pqt_prt_03.value].filterMap id ∧
    (s.geom_type.value = some "COORDINATES" →
      args.geometry_column = GeometryColumnArg.cols s.x_col.value s.y_col.value) ∧
    (s.geom_type.value = some "H3" →
      args.geometry_column = GeometryColumnArg.single s.h3_col.value) ∧
    (s.geom_type.value ≠ some "COORDINATES" → s.geom_type.value ≠ some "H3" →
      args.geometry_column = GeometryColumnArg.single s.geom_col.value) := by
  unfold executeP2FC at hok
  split at hok
  case h_1 => cases hok
  case h_2 smplCnt heq =>
    split at hok
    case h_1 => cases hok
    case h_2 outFc heqo =>
      injection hok with h'
      subst h'
      refine ⟨rfl, ?_, ?_, ?_⟩
      · intro hg
        show geometryColumnArg s = GeometryColumnArg.cols s.x_col.value s.y_col.value
        unfold geometryColumnArg
        rw [if_pos (by simp [hg])]
      · intro hg
        show geometryColumnArg s = GeometryColumnArg.single s.h3_col.value
        unfold geometryColumnArg
        rw [if_neg (by simp [hg]), if_pos (by simp [hg])]
      · intro hg1 hg2
        show geometryColumnArg s = GeometryColumnArg.single s.geom_col.value
        unfold geometryColumnArg
        rw [if_neg (by simp [hg1]), if_neg (by simp [hg2])]

/-- Witness for the partition-dropdown claim at the concrete three-level
    dataset. -/
theorem c1_partition_dropdowns_witness :
    ((updOut wW sW).pqt_prt_01.enabled = true ∧
      (updOut wW sW).pqt_prt_01.filterList =
        (dirChildNames wW.root ["data", "pqt"]).map pstem) ∧
    ((updOut wW sW).pqt_prt_02.enabled = true ∧
      (updOut wW sW).pqt_prt_02.filterList =
        (dirChildNames wW.root (pyJoin ["data", "pqt"] "year=2020")).map pstem) ∧
    ((updOut wW sW).pqt_prt_03.enabled = true ∧
      (updOut wW sW).pqt_prt_03.filterList =
        (dirChildNames wW.root (pyJoin (pyJoin ["data", "pqt"] "year=2020") "month=01")).map
          pstem) := by
  have h := c1_partition_dropdowns wW sW (updOut wW sW) ["data", "pqt"]
    (by decide) rfl rfl rfl
  exact ⟨h.1 (by decide), h.2.1 "year=2020" rfl rfl (by decide),
    h.2.2 "year=2020" "month=01" rfl rfl rfl (by decide)⟩

/-- Witness for the part-file message claim: the concrete dataset has part
    files, and after the run no message is set. -/
theorem c3_part_file_message_witness :
    ((updOut wW sW).pqt_pth.errorMessage = some cannotLocateMsg ↔
      rglobP wW.root ["data", "pqt"] matchPartParquet = []) :=
  c3_part_file_message wW sW (updOut wW sW) ["data", "pqt"] rfl rfl rfl rfl

/-- Witness for the sample-count claim: switching the flag off with a zero
    count resets the count to 100 and sets no message. -/
theorem c4_sample_count_witness :
    ((updOut wW sW4).smpl_cnt.errorMessage = some sampleCountMsg ↔
      (sW4.smpl.value = some true ∧
        (sW4.smpl_cnt.value = none ∨ ∃ n, sW4.smpl_cnt.value = some n ∧ n < 1))) ∧
    (updOut wW sW4).smpl_cnt.value = some 100 := by
  have h := c4_sample_count wW sW4 (updOut wW sW4) rfl rfl
  exact ⟨h.1, h.2 rfl rfl (Or.inr ⟨0, rfl, by decide⟩)⟩

/-- Witness for the amended geometry-column claim: with geometry type
    POINT the wkb column is chosen and the option list is the schema. -/
theorem c6_geom_col_default_witness :
    (updOut wW sW6).geom_col.filterList = wW.schemaNames ["data", "pqt"] ∧
      ∃ c, (updOut wW sW6).geom_col.value = some c ∧
        c ∈ wW.schemaNames ["data", "pqt"] ∧ isWkbCol c = true := by
  have h := c6_geom_col_default wW sW6 (updOut wW sW6) ["data", "pqt"] rfl rfl rfl
  exact ⟨h.1, h.2 rfl (by decide) (by decide) ⟨"geometry_wkb", by decide, by decide⟩⟩

/-- Witness for the coordinate/H3 default claim: with COORDINATES the
    longitude and latitude columns default to schema columns. -/
theorem c7_column_defaults_witness :
    (∃ c, (updOut wW sW).x_col.value = some c ∧
      c ∈ wW.schemaNames ["data", "pqt"] ∧ isLonCol c = true) ∧
    (∃ c, (updOut wW sW).y_col.value = some c ∧
      c ∈ wW.schemaNames ["data", "pqt"] ∧ isLatCol c = true) := by
  have h := c7_column_defaults wW sW (updOut wW sW) ["data", "pqt"] rfl rfl rfl
  have hc := h.1 rfl
  exact ⟨hc.1 rfl ⟨"lon", by decide, by decide⟩, hc.2.2.1 rfl ⟨"lat", by decide, by decide⟩⟩

/-- Witness for the column-group claim: with COORDINATES the longitude and
    latitude columns are enabled and required, the others deactivated. -/
theorem c8_column_groups_witness :
    (updOut wW sW).x_col.enabled = true ∧
      (updOut wW sW).x_col.paramType = ParamType.required ∧
      (updOut wW sW).y_col.enabled = true ∧
      (updOut wW sW).y_col.paramType = ParamType.required ∧
      (updOut wW sW).geom_col.enabled = false ∧
      (updOut wW sW).geom_col.paramType = ParamType.optional ∧
      (updOut wW sW).h3_col.enabled = false ∧
      (updOut wW sW).h3_col.paramType = ParamType.optional := by
  have h := c8_column_groups wW sW (updOut wW sW) rfl (Or.inr rfl)
  exact h.1 rfl

/-- Witness for the sample-count forwarding claim: flag on with a count of
    50 forwards 50. -/
theorem c9_sample_forwarding_witness : (execOut sE).sample_count = some 50 := by
  have h := c9_sample_forwarding sE (execOut sE) rfl
  exact (h.2 rfl).trans rfl

/-- Witness for the execute-arguments claim: level-two partition unset is
    dropped, and COORDINATES forwards the longitude/latitude pair. -/
theorem c10_execute_args_witness :
    (execOut sE).parquet_partitions = ["year=2020", "day=05"] ∧
      (execOut sE).geometry_column = GeometryColumnArg.cols (some "lon") (some "lat") := by
  have h := c10_execute_args sE (execOut sE) rfl
  exact ⟨h.1.trans rfl, (h.2.1 rfl).trans rfl⟩
